import Mathlib

/-!
# Verification of `sys/amd64/xen/mmu_map.c`

Shallow embedding of the amd64 Xen page-table hierarchy manager.

Modelling conventions:

* Machine words are `Nat`; entry values are 64-bit quantities but none of the
  operations here can overflow 64 bits on the inputs the theorems constrain.
* Pointers are virtual byte addresses (`Nat`), with `0` playing the role of
  `NULL` exactly as in the source ("a table cannot exist at address 0").
* Table memory is a total map from slot address to 64-bit entry value
  (`World.mem`).  A page-table page holds 512 eight-byte slots.
* The backend callbacks `ptov`/`vtop` and the Xen translations
  `xpmap_mtop`/`xpmap_ptom` are modelled as the four translation functions of
  an ambient `Env`; the `mmu_map_mbackend` structure copied into the walk
  context keeps the null-ness of each callback pointer (`hasAlloc`, …),
  which is all `mmu_map_t_init` and the `free` call sites inspect.
* The backend page allocator is modelled by a supply list of page addresses in
  the world state; `mbAlloc` pops the next page and zeroes it, as the backend
  contract requires ("allocate a zeroed table page").
* Every externally visible action (table-entry read, full-page emptiness scan,
  allocation, queued hypervisor update, queue flush, page free) is recorded in
  an event trace, so frame conditions and ordering claims are statements about
  the trace.
* `KASSERT` failures are fatal contract violations; they are modelled as
  `Except.error`.
-/

/-! ## Architecture constants (from the amd64 headers used by the source) -/

def PAGE_SHIFT : Nat := 12

def PAGE_SIZE : Nat := 4096

def PML4SHIFT : Nat := 39

def PDPSHIFT : Nat := 30

def PDRSHIFT : Nat := 21

/-- amd64 sign extends the 48th bit and upwards; mask that removes it. -/
def SIGNMASK : Nat := (1 <<< 48) - 1

def PML4MASK : Nat := (1 <<< PML4SHIFT) - 1

def PDPMASK : Nat := (1 <<< PDPSHIFT) - 1

def PG_V : Nat := 1

def PG_RW : Nat := 2

def PG_U : Nat := 4

def PG_FRAME : Nat := 0x000ffffffffff000

def SANE : Nat := 0xcafebabe

def VM_MAX_KERNEL_ADDRESS : Nat := 0xfffffffffffff000

def atop (x : Nat) : Nat := x >>> PAGE_SHIFT

/-! ## Index extraction helpers (`pml4t_index`, `pdpt_index`, `pdt_index`) -/

def pml4t_index (va : Nat) : Nat := (va &&& SIGNMASK) >>> PML4SHIFT

def pdpt_index (va : Nat) : Nat := (va &&& PML4MASK) >>> PDPSHIFT

def pdt_index (va : Nat) : Nat := (va &&& PDPMASK) >>> PDRSHIFT

/-! ## Data model -/

/-- Translation environment: the backend's `ptov`/`vtop` pair and Xen's
`xpmap_mtop`/`xpmap_ptom` machine-address translations. -/
structure Env where
  ptov : Nat → Nat
  vtop : Nat → Nat
  mtop : Nat → Nat
  ptom : Nat → Nat

/-- Observable actions of the walk logic. -/
inductive Event where
  | allocE (page : Nat)
  | queueE (ma val : Nat)
  | flushE
  | freeE (va : Nat)
  | readE (addr : Nat)
  | scanE (base : Nat)
  deriving DecidableEq, Repr

/-- World state threaded through the operations: table memory, the pending
hypervisor update queue, the allocator's page supply, and the event trace. -/
structure World where
  mem : Nat → Nat
  pending : List (Nat × Nat)
  allocSupply : List Nat
  events : List Event

/-- `struct mmu_map_mbackend`: which of the four callback pointers are
non-null.  `alloc`/`ptov`/`vtop` are required, `free` is optional. -/
structure MmuMapMbackend where
  hasAlloc : Bool
  hasPtov : Bool
  hasVtop : Bool
  hasFree : Bool
  deriving DecidableEq, Repr

/-- `struct mmu_map_index`: the four table references (virtual addresses,
`0` = absent), the copied backend contract and the sanity cookie. -/
structure MmuMapIndex where
  pml4t : Nat
  pdpt : Nat
  pdt : Nat
  pt : Nat
  ptmb : MmuMapMbackend
  sanity : Nat
  deriving DecidableEq, Repr

/-- The address-space object: only its root table pointer is read here. -/
structure Pmap where
  pm_pml4 : Nat
  deriving DecidableEq, Repr

/-! ## World primitives -/

def writeSlot (m : Nat → Nat) (a v : Nat) : Nat → Nat :=
  fun x => if x = a then v else m x

def zeroPage (m : Nat → Nat) (base : Nat) : Nat → Nat :=
  fun x => if base ≤ x ∧ x < base + PAGE_SIZE then 0 else m x

def pushEvent (w : World) (e : Event) : World :=
  { w with events := w.events ++ [e] }

/-- Backend `alloc`: pop the next page from the supply and zero it. -/
def mbAlloc (w : World) : Nat × World :=
  match w.allocSupply with
  | [] => (0, pushEvent w (Event.allocE 0))
  | p :: rest =>
      (p, { w with mem := zeroPage w.mem p, allocSupply := rest,
                   events := w.events ++ [Event.allocE p] })

/-- `xen_queue_pt_update(ma, val)`: enqueue one 64-bit write at machine
address `ma`. -/
def xen_queue_pt_update (w : World) (ma val : Nat) : World :=
  { w with pending := w.pending ++ [(ma, val)],
           events := w.events ++ [Event.queueE ma val] }

def applyUpdates (env : Env) (m : Nat → Nat) : List (Nat × Nat) → (Nat → Nat)
  | [] => m
  | (ma, val) :: rest => applyUpdates env (writeSlot m (env.ptov (env.mtop ma)) val) rest

/-- `xen_flush_queue()`: apply all pending updates (each lands at the virtual
alias of its machine slot) and clear the queue. -/
def xen_flush_queue (env : Env) (w : World) : World :=
  { w with mem := applyUpdates env w.mem w.pending, pending := [],
           events := w.events ++ [Event.flushE] }

/-- `memcchr(base, 0, PAGE_SIZE) == NULL`: all 512 slots of the page are 0. -/
def scanAllZero (m : Nat → Nat) (base : Nat) : Nat → Bool
  | 0 => true
  | n + 1 => (m (base + 8 * n) == 0) && scanAllZero m base n

def memcchr_zero (m : Nat → Nat) (base : Nat) : Bool := scanAllZero m base 512

/-- Entry installed by `hold` for a fresh table page:
`xpmap_ptom(vtop(page)) | PG_RW | PG_V | PG_U`. -/
def pteFor (env : Env) (pg : Nat) : Nat :=
  env.ptom (env.vtop pg) ||| (PG_RW ||| PG_V ||| PG_U)

/-- Machine address of a table slot: `xpmap_ptom(vtop(slot))`. -/
def slotMa (env : Env) (slot : Nat) : Nat := env.ptom (env.vtop slot)

/-! ## Table get helpers (`pmap_get_pml4t`, `pmap_get_pdpt`, …) -/

def pmap_get_pml4t (pm : Pmap) : Except String Nat :=
  if pm.pm_pml4 = 0 then .error "pmap has NULL pml4" else .ok pm.pm_pml4

/-- Shared body of the three `pmap_get_*` table walkers: read the governing
entry; `0` if it is not `PG_V`, otherwise `xpmap_mtop(e & PG_FRAME)`. -/
def levelPhys (env : Env) (m : Nat → Nat) (slot : Nat) : Nat :=
  if m slot &&& PG_V = 0 then 0 else env.mtop (m slot &&& PG_FRAME)

def pmap_get_pdpt (env : Env) (va pml4t : Nat) (w : World) : Except String (Nat × World) :=
  if va ≤ VM_MAX_KERNEL_ADDRESS then
    if pml4t = 0 then .error "pml4t cannot be zero"
    else .ok (levelPhys env w.mem (pml4t + 8 * pml4t_index va),
              pushEvent w (Event.readE (pml4t + 8 * pml4t_index va)))
  else .error "invalid address requested"

def pmap_get_pdt (env : Env) (va pdpt : Nat) (w : World) : Except String (Nat × World) :=
  if va ≤ VM_MAX_KERNEL_ADDRESS then
    if pdpt = 0 then .error "pdpt cannot be zero"
    else .ok (levelPhys env w.mem (pdpt + 8 * pdpt_index va),
              pushEvent w (Event.readE (pdpt + 8 * pdpt_index va)))
  else .error "invalid address requested"

def pmap_get_pt (env : Env) (va pdt : Nat) (w : World) : Except String (Nat × World) :=
  if va ≤ VM_MAX_KERNEL_ADDRESS then
    if pdt = 0 then .error "pdt cannot be zero"
    else .ok (levelPhys env w.mem (pdt + 8 * pdt_index va),
              pushEvent w (Event.readE (pdt + 8 * pdt_index va)))
  else .error "invalid address requested"

/-! ## Context lifecycle -/

def mmu_map_t_init (addr : Option MmuMapIndex) (mb : Option MmuMapMbackend) :
    Except String MmuMapIndex :=
  match addr, mb with
  | some pti, some m =>
      if pti.sanity = SANE then .error "index initialised twice"
      else if m.hasAlloc && m.hasPtov && m.hasVtop then
        .ok { pti with ptmb := m, sanity := SANE }
      else .error "initialising with missing required backend routine"
  | _, _ => .error "NULL args given"

def mmu_map_t_fini (addr : Option MmuMapIndex) : Except String MmuMapIndex :=
  match addr with
  | some pti =>
      if pti.sanity ≠ SANE then .error "Uninitialised index cookie used"
      else .ok { pti with sanity := 0 }
  | none => .error "NULL args given"

def mmu_map_pml4t (addr : MmuMapIndex) : Except String Nat :=
  if addr.sanity ≠ SANE then .error "Uninitialised index cookie used" else .ok addr.pml4t

def mmu_map_pdpt (addr : MmuMapIndex) : Except String Nat :=
  if addr.sanity ≠ SANE then .error "Uninitialised index cookie used" else .ok addr.pdpt

def mmu_map_pdt (addr : MmuMapIndex) : Except String Nat :=
  if addr.sanity ≠ SANE then .error "Uninitialised index cookie used" else .ok addr.pdt

def mmu_map_pt (addr : MmuMapIndex) : Except String Nat :=
  if addr.sanity ≠ SANE then .error "Uninitialised index cookie used" else .ok addr.pt

/-! ## `mmu_map_inspect_va` -/

def mmu_map_inspect_va (env : Env) (pm : Pmap) (pti0 : MmuMapIndex) (va : Nat) (w0 : World) :
    Except String (Bool × MmuMapIndex × World) :=
  if pti0.sanity ≠ SANE then .error "Uninitialised index cookie used" else
  match pmap_get_pml4t pm with
  | .error s => .error s
  | .ok root =>
    let pti1 := { pti0 with pml4t := root }
    match pmap_get_pdpt env va pti1.pml4t w0 with
    | .error s => .error s
    | .ok pr1 =>
      if pr1.1 = 0 then .ok (false, pti1, pr1.2)
      else
        let pti2 := { pti1 with pdpt := env.ptov pr1.1 }
        match pmap_get_pdt env va pti2.pdpt pr1.2 with
        | .error s => .error s
        | .ok pr2 =>
          if pr2.1 = 0 then .ok (false, pti2, pr2.2)
          else
            let pti3 := { pti2 with pdt := env.ptov pr2.1 }
            match pmap_get_pt env va pti3.pdt pr2.2 with
            | .error s => .error s
            | .ok pr3 =>
              if pr3.1 = 0 then .ok (false, pti3, pr3.2)
              else .ok (true, { pti3 with pt := env.ptov pr3.1 }, pr3.2)

/-! ## `mmu_map_hold_va` -/

def mmu_map_hold_va (env : Env) (pm : Pmap) (pti0 : MmuMapIndex) (va : Nat) (w0 : World) :
    Except String (Bool × MmuMapIndex × World) :=
  if pti0.sanity ≠ SANE then .error "Uninitialised index cookie used" else
  match pmap_get_pml4t pm with
  | .error s => .error s
  | .ok root =>
    let pti1 := { pti0 with pml4t := root }
    match pmap_get_pdpt env va pti1.pml4t w0 with
    | .error s => .error s
    | .ok pr1 =>
      let st1 : Nat × Bool × World :=
        if pr1.1 = 0 then
          let al := mbAlloc pr1.2
          let slot := pti1.pml4t + 8 * pml4t_index va
          (al.1, true,
            xen_flush_queue env (xen_queue_pt_update al.2 (slotMa env slot) (pteFor env al.1)))
        else (env.ptov pr1.1, false, pr1.2)
      let pti2 := { pti1 with pdpt := st1.1 }
      match pmap_get_pdt env va pti2.pdpt st1.2.2 with
      | .error s => .error s
      | .ok pr2 =>
        let st2 : Nat × Bool × World :=
          if pr2.1 = 0 then
            let al := mbAlloc pr2.2
            let slot := pti2.pdpt + 8 * pdpt_index va
            (al.1, true,
              xen_flush_queue env (xen_queue_pt_update al.2 (slotMa env slot) (pteFor env al.1)))
          else (env.ptov pr2.1, false, pr2.2)
        let pti3 := { pti2 with pdt := st2.1 }
        match pmap_get_pt env va pti3.pdt st2.2.2 with
        | .error s => .error s
        | .ok pr3 =>
          let st3 : Nat × Bool × World :=
            if pr3.1 = 0 then
              let al := mbAlloc pr3.2
              let slot := pti3.pdt + 8 * pdt_index va
              (al.1, true,
                xen_flush_queue env (xen_queue_pt_update al.2 (slotMa env slot) (pteFor env al.1)))
            else (env.ptov pr3.1, false, pr3.2)
          let pti4 := { pti3 with pt := st3.1 }
          .ok (st1.2.1 || st2.2.1 || st3.2.1, pti4, st3.2.2)

/-! ## `mmu_map_release_va`

The source's three "Zap" blocks. Note that the emptiness scans of the second
and third blocks scan `pti->pt` — exactly as the C source does (lines 489 and
531), not the table those blocks go on to free. -/

inductive RelFlow where
  | done (pti : MmuMapIndex) (w : World)
  | cont (pti : MmuMapIndex) (w : World)

/-- Block 1 of `mmu_map_release_va` ("Zap pdte", source lines 411–457). -/
def releaseZapPdte (env : Env) (va : Nat) (pti : MmuMapIndex) (w : World) :
    Except String RelFlow :=
  if pti.pdt ≠ 0 then
    let pdtep := pti.pdt + 8 * pdt_index va
    if pti.pt = 0 then
      let e := w.mem pdtep
      let w1 := pushEvent w (Event.readE pdtep)
      if e ≠ 0 then .error "mmu state machine out of sync"
      else if pti.pdpt = 0 then .error "Invalid pdpt" else .ok (RelFlow.cont pti w1)
    else
      if atop pti.pt = atop va then .ok (RelFlow.done pti w)
      else
        let w1 := pushEvent w (Event.scanE pti.pt)
        if memcchr_zero w1.mem pti.pt then
          let w2 := xen_flush_queue env (xen_queue_pt_update w1 (slotMa env pdtep) 0)
          let w3 := if pti.ptmb.hasFree then pushEvent w2 (Event.freeE pti.pt) else w2
          let pti2 := { pti with pt := 0 }
          if pti2.pdpt = 0 then .error "Invalid pdpt" else .ok (RelFlow.cont pti2 w3)
        else
          if pti.pdpt = 0 then .error "Invalid pdpt" else .ok (RelFlow.cont pti w1)
  else .ok (RelFlow.cont pti w)

/-- Tail of block 2 (self-map check, scan, zap), source lines 470–500. -/
def releaseZapPdpteTail (env : Env) (va : Nat) (pti : MmuMapIndex) (w : World) :
    Except String RelFlow :=
  if atop pti.pdt = atop va then .ok (RelFlow.done pti w)
  else
    let pdptep := pti.pdpt + 8 * pdpt_index va
    let w1 := pushEvent w (Event.scanE pti.pt)
    if memcchr_zero w1.mem pti.pt then
      let w2 := xen_flush_queue env (xen_queue_pt_update w1 (slotMa env pdptep) 0)
      let w3 := if pti.ptmb.hasFree then pushEvent w2 (Event.freeE pti.pdt) else w2
      let pti2 := { pti with pdt := 0 }
      if pti2.pml4t = 0 then .error "Invalid pml4t" else .ok (RelFlow.cont pti2 w3)
    else
      if pti.pml4t = 0 then .error "Invalid pml4t" else .ok (RelFlow.cont pti w1)

/-- Block 2 of `mmu_map_release_va` ("Zap pdpte", source lines 459–501). -/
def releaseZapPdpte (env : Env) (va : Nat) (pti : MmuMapIndex) (w : World) :
    Except String RelFlow :=
  if pti.pdpt ≠ 0 then
    let pdptep := pti.pdpt + 8 * pdpt_index va
    if pti.pdt = 0 then
      let e := w.mem pdptep
      let w1 := pushEvent w (Event.readE pdptep)
      if e ≠ 0 then .error "mmu state machine out of sync"
      else releaseZapPdpteTail env va pti w1
    else releaseZapPdpteTail env va pti w
  else .ok (RelFlow.cont pti w)

/-- Tail of block 3 (self-map check, scan, zap), source lines 513–543. -/
def releaseZapPml4teTail (env : Env) (va : Nat) (pti : MmuMapIndex) (w : World) :
    Except String RelFlow :=
  if atop pti.pdpt = atop va then .ok (RelFlow.done pti w)
  else
    let pml4tep := pti.pml4t + 8 * pml4t_index va
    let w1 := pushEvent w (Event.scanE pti.pt)
    if memcchr_zero w1.mem pti.pt then
      let w2 := xen_flush_queue env (xen_queue_pt_update w1 (slotMa env pml4tep) 0)
      let w3 := if pti.ptmb.hasFree then pushEvent w2 (Event.freeE pti.pdpt) else w2
      .ok (RelFlow.cont { pti with pdpt := 0 } w3)
    else .ok (RelFlow.cont pti w1)

/-- Block 3 of `mmu_map_release_va` ("Zap pml4te", source lines 503–543). -/
def releaseZapPml4te (env : Env) (va : Nat) (pti : MmuMapIndex) (w : World) :
    Except String RelFlow :=
  if pti.pml4t ≠ 0 then
    let pml4tep := pti.pml4t + 8 * pml4t_index va
    if pti.pdpt = 0 then
      let e := w.mem pml4tep
      let w1 := pushEvent w (Event.readE pml4tep)
      if e ≠ 0 then .error "mmu state machine out of sync"
      else releaseZapPml4teTail env va pti w1
    else releaseZapPml4teTail env va pti w
  else .ok (RelFlow.cont pti w)

def mmu_map_release_va (env : Env) (pm : Pmap) (pti0 : MmuMapIndex) (va : Nat) (w0 : World) :
    Except String (MmuMapIndex × World) :=
  if pti0.sanity ≠ SANE then .error "Uninitialised index cookie used" else
  match pmap_get_pml4t pm with
  | .error s => .error s
  | .ok root =>
    let pti1 := { pti0 with pml4t := root }
    if pti1.pml4t = 0 then .ok (pti1, w0) else
    if pti1.pt ≠ 0 ∧ pti1.pdt = 0 then .error "Invalid pdt" else
    match releaseZapPdte env va pti1 w0 with
    | .error s => .error s
    | .ok (RelFlow.done pti w) => .ok (pti, w)
    | .ok (RelFlow.cont pti w) =>
      match releaseZapPdpte env va pti w with
      | .error s => .error s
      | .ok (RelFlow.done pti2 w2) => .ok (pti2, w2)
      | .ok (RelFlow.cont pti2 w2) =>
        match releaseZapPml4te env va pti2 w2 with
        | .error s => .error s
        | .ok (RelFlow.done pti3 w3) => .ok (pti3, w3)
        | .ok (RelFlow.cont pti3 w3) => .ok (pti3, w3)

/-! ## Scenario glue used by the end-to-end theorems -/

def holdThenRelease (env : Env) (pm : Pmap) (pti : MmuMapIndex) (va : Nat) (w : World) :
    Except String (MmuMapIndex × World) :=
  match mmu_map_hold_va env pm pti va w with
  | .error s => .error s
  | .ok r => mmu_map_release_va env pm r.2.1 va r.2.2

def exceptOk {α : Type} (e : Except String α) : Bool :=
  match e with
  | .ok _ => true
  | .error _ => false

/-! ## Concrete end-to-end scenario: fresh `hold` followed by `release`

Identity translations, root table at `0x1000`, allocator supply
`0x2000, 0x3000, 0x4000`, all table memory initially zero except one nonzero
word at address `0` (address `0` is never a table: the source states "a table
cannot exist at address 0"). -/

def idEnv : Env := { ptov := fun p => p, vtop := fun v => v,
                     mtop := fun m => m, ptom := fun p => p }

def mbAll : MmuMapMbackend := ⟨true, true, true, true⟩

def pmW : Pmap := ⟨4096⟩

def ptiW : MmuMapIndex := ⟨0, 0, 0, 0, mbAll, SANE⟩

def memW : Nat → Nat := fun a => if a = 0 then 1 else 0

def wW : World := ⟨memW, [], [8192, 12288, 16384], []⟩

def vaW : Nat := 0x100020003000

def hrRes : Except String (MmuMapIndex × World) := holdThenRelease idEnv pmW ptiW vaW wW

def isFreeEvent (e : Event) : Bool :=
  match e with
  | Event.freeE _ => true
  | _ => false

/-- The context as `hold` leaves it in the scenario: all four levels resolved. -/
def ptiH : MmuMapIndex := ⟨4096, 8192, 12288, 16384, mbAll, SANE⟩

/-- The table memory as `hold` leaves it: three fresh zeroed pages and the
three governing entries (`0x1100 ↦ 0x2007`, `0x2000 ↦ 0x3007`,
`0x3800 ↦ 0x4007`) installed by the flushed queue. -/
def memH : Nat → Nat :=
  writeSlot (zeroPage (writeSlot (zeroPage (writeSlot (zeroPage memW 8192) 4352 8199)
    12288) 8192 12295) 16384) 14336 16391

/-- The event trace of the `hold`: per level one read, and for each of the
three allocated levels an allocation, one queued update and one flush. -/
def eventsH : List Event :=
  [Event.readE 4352, Event.allocE 8192, Event.queueE 4352 8199, Event.flushE,
   Event.readE 8192, Event.allocE 12288, Event.queueE 8192 12295, Event.flushE,
   Event.readE 14336, Event.allocE 16384, Event.queueE 14336 16391, Event.flushE]

def wH : World := ⟨memH, [], [], eventsH⟩

def relW : Except String (MmuMapIndex × World) := mmu_map_release_va idEnv pmW ptiH vaW wH

def relWEvents : List Event :=
  match relW with
  | .ok r => r.2.events
  | .error _ => []

def relWMem (a : Nat) : Nat :=
  match relW with
  | .ok r => r.2.mem a
  | .error _ => 99



/-- Memory with a fully live walk chain for `vaW`: PML4 entry at `0x1100`,
PDPT entry at `0x2000`, PDT entry at `0x3800`, everything else empty. -/
def memI : Nat → Nat :=
  fun a => if a = 4352 then 8199 else if a = 8192 then 12295 else
    if a = 14336 then 16391 else 0

def wI : World := ⟨memI, [], [], []⟩

/-! ## Self-mapping scenario for C7 -/

def pmC : Pmap := ⟨4096⟩

def ptiC : MmuMapIndex := ⟨0, 8192, 12288, 16384, mbAll, SANE⟩

def vaC : Nat := 12304

def memC : Nat → Nat := fun a => if a = 12288 then 5 else 0

def wC : World := ⟨memC, [], [], []⟩

def relC : Except String (MmuMapIndex × World) := mmu_map_release_va idEnv pmC ptiC vaC wC

def relCEvents : List Event :=
  match relC with
  | .ok r => r.2.events
  | .error _ => []

def relCMem (a : Nat) : Nat :=
  match relC with
  | .ok r => r.2.mem a
  | .error _ => 99

/-! ## Well-formedness predicates and resolution observers -/

/-- Coherence of the translation environment: `ptov`/`vtop` and
`xpmap_mtop`/`xpmap_ptom` are inverse pairs, `ptov` never produces the
impossible table address `0` for a real physical address, and both
physical-to-virtual translations preserve page alignment. -/
structure EnvGood (env : Env) : Prop where
  ptov_vtop : ∀ v, env.ptov (env.vtop v) = v
  mtop_ptom : ∀ p, env.mtop (env.ptom p) = p
  ptov_ne : ∀ p, p ≠ 0 → env.ptov p ≠ 0
  ptov_align : ∀ p, p % PAGE_SIZE = 0 → env.ptov p % PAGE_SIZE = 0
  mtop_align : ∀ p, p % PAGE_SIZE = 0 → env.mtop p % PAGE_SIZE = 0

/-- A page address the allocator may hand out: nonzero, page aligned, and its
machine translation is a representable page frame (fits `PG_FRAME`). -/
def PageFit (env : Env) (p : Nat) : Prop :=
  p ≠ 0 ∧ p % PAGE_SIZE = 0 ∧ env.vtop p ≠ 0 ∧
  env.ptom (env.vtop p) % PAGE_SIZE = 0 ∧ env.ptom (env.vtop p) < 2 ^ 52

/-- Physical address the walk resolves for the PDPT from the root entry. -/
def resolvedPdptPhys (env : Env) (pm : Pmap) (va : Nat) (w : World) : Nat :=
  levelPhys env w.mem (pm.pm_pml4 + 8 * pml4t_index va)

def resolvedPdptVa (env : Env) (pm : Pmap) (va : Nat) (w : World) : Nat :=
  env.ptov (resolvedPdptPhys env pm va w)

def resolvedPdtPhys (env : Env) (pm : Pmap) (va : Nat) (w : World) : Nat :=
  levelPhys env w.mem (resolvedPdptVa env pm va w + 8 * pdpt_index va)

def resolvedPdtVa (env : Env) (pm : Pmap) (va : Nat) (w : World) : Nat :=
  env.ptov (resolvedPdtPhys env pm va w)

def resolvedPtPhys (env : Env) (pm : Pmap) (va : Nat) (w : World) : Nat :=
  levelPhys env w.mem (resolvedPdtVa env pm va w + 8 * pdt_index va)

def resolvedPtVa (env : Env) (pm : Pmap) (va : Nat) (w : World) : Nat :=
  env.ptov (resolvedPtPhys env pm va w)

/-- Trace fragment of one allocating level of `hold`: allocation, one queued
update installing the new table's entry in the parent slot (at the slot's
machine address, value = machine frame of the new table OR'd with
`PG_RW|PG_V|PG_U`), and an immediate flush. -/
def allocBlock (env : Env) (slot pg : Nat) : List Event :=
  [Event.allocE pg, Event.queueE (slotMa env slot) (pteFor env pg), Event.flushE]

/-- Preconditions for the symbolic `hold` theorems: coherent translations, a
valid initialized context, an address inside the supported range, an empty
update queue, an aligned nonzero root, three well-formed fresh pages at the
head of the allocator supply, and no page aliasing between the root, the
already-resolved tables and the fresh pages. -/
def HoldPre (env : Env) (pm : Pmap) (pti : MmuMapIndex) (va : Nat) (w : World) : Prop :=
  EnvGood env ∧ pti.sanity = SANE ∧ va ≤ VM_MAX_KERNEL_ADDRESS ∧ w.pending = [] ∧
  pm.pm_pml4 ≠ 0 ∧ pm.pm_pml4 % PAGE_SIZE = 0 ∧
  (∃ p1 p2 p3 rest, w.allocSupply = p1 :: p2 :: p3 :: rest ∧
    PageFit env p1 ∧ PageFit env p2 ∧ PageFit env p3 ∧
    p1 ≠ pm.pm_pml4 ∧ p2 ≠ pm.pm_pml4 ∧ p3 ≠ pm.pm_pml4 ∧
    p1 ≠ p2 ∧ p1 ≠ p3 ∧ p2 ≠ p3 ∧
    (resolvedPdptPhys env pm va w ≠ 0 →
      resolvedPdptVa env pm va w ≠ pm.pm_pml4 ∧
      resolvedPdptVa env pm va w ≠ p1 ∧ resolvedPdptVa env pm va w ≠ p2 ∧
      resolvedPdptVa env pm va w ≠ p3 ∧
      (resolvedPdtPhys env pm va w ≠ 0 →
        resolvedPdtVa env pm va w ≠ pm.pm_pml4 ∧
        resolvedPdtVa env pm va w ≠ resolvedPdptVa env pm va w ∧
        resolvedPdtVa env pm va w ≠ p1 ∧ resolvedPdtVa env pm va w ≠ p2 ∧
        resolvedPdtVa env pm va w ≠ p3)))

/-- The state a successful `hold` leaves behind: all three levels resolve,
through the final memory, to the context's table references. -/
def PostChain (env : Env) (pm : Pmap) (pti : MmuMapIndex) (va : Nat) (w : World) : Prop :=
  pti.sanity = SANE ∧
  pti.pml4t = pm.pm_pml4 ∧
  resolvedPdptPhys env pm va w ≠ 0 ∧ resolvedPdptVa env pm va w = pti.pdpt ∧ pti.pdpt ≠ 0 ∧
  resolvedPdtPhys env pm va w ≠ 0 ∧ resolvedPdtVa env pm va w = pti.pdt ∧ pti.pdt ≠ 0 ∧
  resolvedPtPhys env pm va w ≠ 0 ∧ resolvedPtVa env pm va w = pti.pt ∧ pti.pt ≠ 0

/-! ## Helper lemmas: arithmetic, bit-level, and state primitives -/

lemma pml4t_index_lt (va : Nat) : pml4t_index va < 512 := by
  have h : va &&& SIGNMASK ≤ SIGNMASK := Nat.and_le_right
  have h2 : (va &&& SIGNMASK) / 2 ^ PML4SHIFT ≤ SIGNMASK / 2 ^ PML4SHIFT :=
    Nat.div_le_div_right h
  calc pml4t_index va = (va &&& SIGNMASK) / 2 ^ PML4SHIFT := Nat.shiftRight_eq_div_pow _ _
    _ ≤ SIGNMASK / 2 ^ PML4SHIFT := h2
    _ < 512 := by decide

lemma pdpt_index_lt (va : Nat) : pdpt_index va < 512 := by
  have h : va &&& PML4MASK ≤ PML4MASK := Nat.and_le_right
  have h2 : (va &&& PML4MASK) / 2 ^ PDPSHIFT ≤ PML4MASK / 2 ^ PDPSHIFT :=
    Nat.div_le_div_right h
  calc pdpt_index va = (va &&& PML4MASK) / 2 ^ PDPSHIFT := Nat.shiftRight_eq_div_pow _ _
    _ ≤ PML4MASK / 2 ^ PDPSHIFT := h2
    _ < 512 := by decide

lemma pdt_index_lt (va : Nat) : pdt_index va < 512 := by
  have h : va &&& PDPMASK ≤ PDPMASK := Nat.and_le_right
  have h2 : (va &&& PDPMASK) / 2 ^ PDRSHIFT ≤ PDPMASK / 2 ^ PDRSHIFT :=
    Nat.div_le_div_right h
  calc pdt_index va = (va &&& PDPMASK) / 2 ^ PDRSHIFT := Nat.shiftRight_eq_div_pow _ _
    _ ≤ PDPMASK / 2 ^ PDRSHIFT := h2
    _ < 512 := by decide

lemma writeSlot_same (m : Nat → Nat) (a v : Nat) : writeSlot m a v a = v := by
  simp [writeSlot]

lemma writeSlot_ne (m : Nat → Nat) (a v x : Nat) (h : x ≠ a) : writeSlot m a v x = m x := by
  simp [writeSlot, h]

lemma zeroPage_in (m : Nat → Nat) (base x : Nat) (h1 : base ≤ x) (h2 : x < base + PAGE_SIZE) :
    zeroPage m base x = 0 := by
  simp [zeroPage, h1, h2]

lemma zeroPage_out (m : Nat → Nat) (base x : Nat) (h : x < base ∨ base + PAGE_SIZE ≤ x) :
    zeroPage m base x = m x := by
  unfold zeroPage
  rw [if_neg]
  omega

lemma slot_in_page (p i : Nat) (_hp : p % PAGE_SIZE = 0) (hi : i < 512) :
    p ≤ p + 8 * i ∧ p + 8 * i < p + PAGE_SIZE := by
  simp only [PAGE_SIZE] at *
  omega

lemma slot_ne_of_page_ne (p q i j : Nat) (hp : p % PAGE_SIZE = 0) (hq : q % PAGE_SIZE = 0)
    (hpq : p ≠ q) (hi : i < 512) (hj : j < 512) : p + 8 * i ≠ q + 8 * j := by
  simp only [PAGE_SIZE] at hp hq
  omega

lemma slot_out_of_page (p q j : Nat) (hp : p % PAGE_SIZE = 0) (hq : q % PAGE_SIZE = 0)
    (hpq : q ≠ p) (hj : j < 512) : q + 8 * j < p ∨ p + PAGE_SIZE ≤ q + 8 * j := by
  simp only [PAGE_SIZE] at *
  omega

lemma testBit_low_of_align (x : Nat) (hx : x % 4096 = 0) (i : Nat) (hi : i < 12) :
    x.testBit i = false := by
  rw [Nat.testBit_to_div_mod]
  obtain ⟨k, hk⟩ : ∃ k, x = 4096 * k := ⟨x / 4096, by omega⟩
  subst hk
  have hdiv : 4096 * k / 2 ^ i = 2 ^ (12 - i) * k := by
    rw [show (4096 : Nat) = 2 ^ i * 2 ^ (12 - i) by
        rw [← pow_add, show i + (12 - i) = 12 from by omega]
        decide,
      mul_assoc, Nat.mul_div_cancel_left _ (Nat.two_pow_pos i)]
  rw [hdiv, show (12 - i) = (11 - i) + 1 by omega, pow_succ, mul_comm (2 ^ (11 - i)) 2,
    mul_assoc, Nat.mul_mod_right]
  decide

lemma testBit_frame (i : Nat) : PG_FRAME.testBit i = (decide (12 ≤ i) && decide (i < 52)) := by
  rcases Nat.lt_or_ge i 12 with h | h
  · have hb : PG_FRAME.testBit i = false := by interval_cases i <;> decide
    rw [hb, decide_eq_false (by omega : ¬ (12 ≤ i)), Bool.false_and]
  · rcases Nat.lt_or_ge i 52 with h2 | h2
    · have hb : PG_FRAME.testBit i = true := by interval_cases i <;> decide
      rw [hb, decide_eq_true h, decide_eq_true h2]
      rfl
    · have hlt : PG_FRAME < 2 ^ i :=
        lt_of_lt_of_le (by decide : PG_FRAME < 2 ^ 52) (Nat.pow_le_pow_right (by decide) h2)
      rw [Nat.testBit_eq_false_of_lt hlt, decide_eq_false (by omega : ¬ (i < 52)),
        Bool.and_false]

lemma testBit_seven (i : Nat) : (7 : Nat).testBit i = decide (i < 3) := by
  rcases Nat.lt_or_ge i 3 with h | h
  · have hb : (7 : Nat).testBit i = true := by interval_cases i <;> decide
    rw [hb, decide_eq_true h]
  · have hlt : (7 : Nat) < 2 ^ i :=
      lt_of_lt_of_le (by decide : (7 : Nat) < 2 ^ 3) (Nat.pow_le_pow_right (by decide) h)
    rw [Nat.testBit_eq_false_of_lt hlt, decide_eq_false (by omega : ¬ (i < 3))]

lemma lor7_and_frame (x : Nat) (hal : x % 4096 = 0) (hlt : x < 2 ^ 52) :
    (x ||| 7) &&& PG_FRAME = x := by
  apply Nat.eq_of_testBit_eq
  intro i
  rw [Nat.testBit_land, Nat.testBit_lor, testBit_seven, testBit_frame]
  rcases Nat.lt_or_ge i 12 with h | h
  · rw [testBit_low_of_align x hal i h, decide_eq_false (by omega : ¬ (12 ≤ i)),
      Bool.false_and, Bool.and_false]
  · rw [decide_eq_false (by omega : ¬ (i < 3)), Bool.or_false]
    rcases Nat.lt_or_ge i 52 with h2 | h2
    · rw [decide_eq_true h, decide_eq_true h2]
      simp
    · rw [Nat.testBit_eq_false_of_lt
        (lt_of_lt_of_le hlt (Nat.pow_le_pow_right (by decide) h2)),
        decide_eq_false (by omega : ¬ (i < 52)), Bool.and_false]
      simp

lemma lor7_and_V (x : Nat) : (x ||| 7) &&& PG_V ≠ 0 := by
  have hb : (x ||| 7).testBit 0 = true := by
    rw [Nat.testBit_lor, show (7 : Nat).testBit 0 = true from rfl, Bool.or_true]
  rw [Nat.testBit_to_div_mod] at hb
  simp only [pow_zero, Nat.div_one, decide_eq_true_eq] at hb
  show (x ||| 7) &&& 1 ≠ 0
  rw [Nat.and_one_is_mod]
  omega

lemma pg_flags_val : (PG_RW ||| PG_V ||| PG_U) = 7 := by decide

lemma pteFor_eq (env : Env) (pg : Nat) : pteFor env pg = env.ptom (env.vtop pg) ||| 7 := by
  rw [pteFor, pg_flags_val]

lemma frame_and_aligned (e : Nat) : (e &&& PG_FRAME) % PAGE_SIZE = 0 := by
  have h12 : PAGE_SIZE = 2 ^ 12 := rfl
  rw [h12, ← Nat.and_pow_two_sub_one_eq_mod, Nat.and_assoc,
    show PG_FRAME &&& (2 ^ 12 - 1) = 0 from rfl, Nat.and_zero]

lemma levelPhys_invalid (env : Env) (m : Nat → Nat) (slot : Nat) (h : m slot &&& PG_V = 0) :
    levelPhys env m slot = 0 := by
  rw [levelPhys, if_pos h]

lemma levelPhys_valid (env : Env) (m : Nat → Nat) (slot : Nat) (h : m slot &&& PG_V ≠ 0) :
    levelPhys env m slot = env.mtop (m slot &&& PG_FRAME) := by
  rw [levelPhys, if_neg h]

lemma levelPhys_pteFor (env : Env) (E : EnvGood env) (m : Nat → Nat) (slot p : Nat)
    (hp : PageFit env p) (hm : m slot = pteFor env p) :
    levelPhys env m slot = env.vtop p := by
  obtain ⟨hp0, hpal, hv0, hmal, hmlt⟩ := hp
  rw [levelPhys, hm, pteFor_eq]
  rw [if_neg (lor7_and_V _), lor7_and_frame _ hmal hmlt, E.mtop_ptom]

lemma slotMa_inv (env : Env) (E : EnvGood env) (s : Nat) :
    env.ptov (env.mtop (slotMa env s)) = s := by
  rw [slotMa, E.mtop_ptom, E.ptov_vtop]

lemma flush_single (env : Env) (w : World) (hpend : w.pending = []) (ma v : Nat) :
    xen_flush_queue env (xen_queue_pt_update w ma v) =
      { w with mem := writeSlot w.mem (env.ptov (env.mtop ma)) v,
               pending := [],
               events := w.events ++ [Event.queueE ma v, Event.flushE] } := by
  unfold xen_flush_queue xen_queue_pt_update
  simp [hpend, applyUpdates]

lemma pmap_get_pml4t_ok (pm : Pmap) (h : pm.pm_pml4 ≠ 0) :
    pmap_get_pml4t pm = .ok pm.pm_pml4 := by
  rw [pmap_get_pml4t, if_neg h]

lemma pmap_get_pdpt_ok (env : Env) (va t : Nat) (w : World)
    (hva : va ≤ VM_MAX_KERNEL_ADDRESS) (ht : t ≠ 0) :
    pmap_get_pdpt env va t w =
      .ok (levelPhys env w.mem (t + 8 * pml4t_index va),
           pushEvent w (Event.readE (t + 8 * pml4t_index va))) := by
  rw [pmap_get_pdpt, if_pos hva, if_neg ht]

lemma pmap_get_pdt_ok (env : Env) (va t : Nat) (w : World)
    (hva : va ≤ VM_MAX_KERNEL_ADDRESS) (ht : t ≠ 0) :
    pmap_get_pdt env va t w =
      .ok (levelPhys env w.mem (t + 8 * pdpt_index va),
           pushEvent w (Event.readE (t + 8 * pdpt_index va))) := by
  rw [pmap_get_pdt, if_pos hva, if_neg ht]

lemma pmap_get_pt_ok (env : Env) (va t : Nat) (w : World)
    (hva : va ≤ VM_MAX_KERNEL_ADDRESS) (ht : t ≠ 0) :
    pmap_get_pt env va t w =
      .ok (levelPhys env w.mem (t + 8 * pdt_index va),
           pushEvent w (Event.readE (t + 8 * pdt_index va))) := by
  rw [pmap_get_pt, if_pos hva, if_neg ht]

lemma levelPhys_ne_zero_valid (env : Env) (m : Nat → Nat) (slot : Nat)
    (h : levelPhys env m slot ≠ 0) : m slot &&& PG_V ≠ 0 := by
  intro hv
  exact h (levelPhys_invalid env m slot hv)

lemma inspect_stop1 (env : Env) (pm : Pmap) (pti : MmuMapIndex) (va : Nat) (w : World)
    (hs : pti.sanity = SANE) (hva : va ≤ VM_MAX_KERNEL_ADDRESS) (hroot : pm.pm_pml4 ≠ 0)
    (h1 : resolvedPdptPhys env pm va w = 0) :
    mmu_map_inspect_va env pm pti va w =
      .ok (false, { pti with pml4t := pm.pm_pml4 },
           pushEvent w (Event.readE (pm.pm_pml4 + 8 * pml4t_index va))) := by
  simp only [resolvedPtVa, resolvedPtPhys, resolvedPdtVa, resolvedPdtPhys, resolvedPdptVa,
    resolvedPdptPhys] at *
  unfold mmu_map_inspect_va
  rw [if_neg (by simp [hs])]
  rw [pmap_get_pml4t_ok pm hroot]
  simp only []
  rw [pmap_get_pdpt_ok env va pm.pm_pml4 w hva hroot]
  simp [h1]

lemma inspect_stop2 (env : Env) (E : EnvGood env) (pm : Pmap) (pti : MmuMapIndex)
    (va : Nat) (w : World)
    (hs : pti.sanity = SANE) (hva : va ≤ VM_MAX_KERNEL_ADDRESS) (hroot : pm.pm_pml4 ≠ 0)
    (h1 : resolvedPdptPhys env pm va w ≠ 0) (h2 : resolvedPdtPhys env pm va w = 0) :
    mmu_map_inspect_va env pm pti va w =
      .ok (false,
           { pti with pml4t := pm.pm_pml4, pdpt := resolvedPdptVa env pm va w },
           pushEvent (pushEvent w (Event.readE (pm.pm_pml4 + 8 * pml4t_index va)))
             (Event.readE (resolvedPdptVa env pm va w + 8 * pdpt_index va))) := by
  have ht1 : resolvedPdptVa env pm va w ≠ 0 := E.ptov_ne _ h1
  simp only [resolvedPtVa, resolvedPtPhys, resolvedPdtVa, resolvedPdtPhys, resolvedPdptVa,
    resolvedPdptPhys] at *
  unfold mmu_map_inspect_va
  rw [if_neg (by simp [hs])]
  rw [pmap_get_pml4t_ok pm hroot]
  simp only []
  rw [pmap_get_pdpt_ok env va pm.pm_pml4 w hva hroot]
  simp only [if_neg h1]
  rw [pmap_get_pdt_ok env va _ _ hva ht1]
  simp only [pushEvent]
  simp [h2]

lemma inspect_stop3 (env : Env) (E : EnvGood env) (pm : Pmap) (pti : MmuMapIndex)
    (va : Nat) (w : World)
    (hs : pti.sanity = SANE) (hva : va ≤ VM_MAX_KERNEL_ADDRESS) (hroot : pm.pm_pml4 ≠ 0)
    (h1 : resolvedPdptPhys env pm va w ≠ 0) (h2 : resolvedPdtPhys env pm va w ≠ 0)
    (h3 : resolvedPtPhys env pm va w = 0) :
    mmu_map_inspect_va env pm pti va w =
      .ok (false,
           { pti with pml4t := pm.pm_pml4, pdpt := resolvedPdptVa env pm va w,
                      pdt := resolvedPdtVa env pm va w },
           pushEvent (pushEvent (pushEvent w
               (Event.readE (pm.pm_pml4 + 8 * pml4t_index va)))
             (Event.readE (resolvedPdptVa env pm va w + 8 * pdpt_index va)))
             (Event.readE (resolvedPdtVa env pm va w + 8 * pdt_index va))) := by
  have ht1 : resolvedPdptVa env pm va w ≠ 0 := E.ptov_ne _ h1
  have ht2 : resolvedPdtVa env pm va w ≠ 0 := E.ptov_ne _ h2
  simp only [resolvedPtVa, resolvedPtPhys, resolvedPdtVa, resolvedPdtPhys, resolvedPdptVa,
    resolvedPdptPhys] at *
  unfold mmu_map_inspect_va
  rw [if_neg (by simp [hs])]
  rw [pmap_get_pml4t_ok pm hroot]
  simp only []
  rw [pmap_get_pdpt_ok env va pm.pm_pml4 w hva hroot]
  simp only [if_neg h1]
  rw [pmap_get_pdt_ok env va _ _ hva ht1]
  simp only [pushEvent]
  simp only [if_neg h2]
  rw [pmap_get_pt_ok env va _ _ hva ht2]
  simp only []
  simp [h3, pushEvent]

lemma inspect_found (env : Env) (E : EnvGood env) (pm : Pmap) (pti : MmuMapIndex)
    (va : Nat) (w : World)
    (hs : pti.sanity = SANE) (hva : va ≤ VM_MAX_KERNEL_ADDRESS) (hroot : pm.pm_pml4 ≠ 0)
    (h1 : resolvedPdptPhys env pm va w ≠ 0) (h2 : resolvedPdtPhys env pm va w ≠ 0)
    (h3 : resolvedPtPhys env pm va w ≠ 0) :
    mmu_map_inspect_va env pm pti va w =
      .ok (true,
           { pti with pml4t := pm.pm_pml4, pdpt := resolvedPdptVa env pm va w,
                      pdt := resolvedPdtVa env pm va w, pt := resolvedPtVa env pm va w },
           pushEvent (pushEvent (pushEvent w
               (Event.readE (pm.pm_pml4 + 8 * pml4t_index va)))
             (Event.readE (resolvedPdptVa env pm va w + 8 * pdpt_index va)))
             (Event.readE (resolvedPdtVa env pm va w + 8 * pdt_index va))) := by
  have ht1 : resolvedPdptVa env pm va w ≠ 0 := E.ptov_ne _ h1
  have ht2 : resolvedPdtVa env pm va w ≠ 0 := E.ptov_ne _ h2
  simp only [resolvedPtVa, resolvedPtPhys, resolvedPdtVa, resolvedPdtPhys, resolvedPdptVa,
    resolvedPdptPhys] at *
  unfold mmu_map_inspect_va
  rw [if_neg (by simp [hs])]
  rw [pmap_get_pml4t_ok pm hroot]
  simp only []
  rw [pmap_get_pdpt_ok env va pm.pm_pml4 w hva hroot]
  simp only [if_neg h1]
  rw [pmap_get_pdt_ok env va _ _ hva ht1]
  simp only [pushEvent]
  simp only [if_neg h2]
  rw [pmap_get_pt_ok env va _ _ hva ht2]
  simp only []
  simp [h3, pushEvent]

lemma hold_all_present (env : Env) (E : EnvGood env) (pm : Pmap) (pti : MmuMapIndex)
    (va : Nat) (w : World)
    (hs : pti.sanity = SANE) (hva : va ≤ VM_MAX_KERNEL_ADDRESS) (hroot : pm.pm_pml4 ≠ 0)
    (h1 : resolvedPdptPhys env pm va w ≠ 0) (h2 : resolvedPdtPhys env pm va w ≠ 0)
    (h3 : resolvedPtPhys env pm va w ≠ 0) :
    mmu_map_hold_va env pm pti va w =
      .ok (false,
           { pti with pml4t := pm.pm_pml4, pdpt := resolvedPdptVa env pm va w,
                      pdt := resolvedPdtVa env pm va w, pt := resolvedPtVa env pm va w },
           pushEvent (pushEvent (pushEvent w
               (Event.readE (pm.pm_pml4 + 8 * pml4t_index va)))
             (Event.readE (resolvedPdptVa env pm va w + 8 * pdpt_index va)))
             (Event.readE (resolvedPdtVa env pm va w + 8 * pdt_index va))) := by
  have ht1 : resolvedPdptVa env pm va w ≠ 0 := E.ptov_ne _ h1
  have ht2 : resolvedPdtVa env pm va w ≠ 0 := E.ptov_ne _ h2
  simp only [resolvedPtVa, resolvedPtPhys, resolvedPdtVa, resolvedPdtPhys, resolvedPdptVa,
    resolvedPdptPhys] at *
  unfold mmu_map_hold_va
  rw [if_neg (by simp [hs])]
  rw [pmap_get_pml4t_ok pm hroot]
  simp only []
  rw [pmap_get_pdpt_ok env va pm.pm_pml4 w hva hroot]
  simp only [if_neg h1]
  rw [pmap_get_pdt_ok env va _ _ hva ht1]
  simp only [pushEvent]
  simp only [if_neg h2]
  rw [pmap_get_pt_ok env va _ _ hva ht2]
  simp only []
  simp [h3, pushEvent]

/-! ## Inspect/hold path lemmas are above; claim theorems follow. -/

/-- C4: `inspect` never calls the backend allocator and never queues or
flushes a hypervisor update (its final world differs from the initial one only
by read events in the trace); it returns found = true, populating all four
context table references with nonzero (dereferenceable) table addresses,
exactly when the governing entry at every level of the walk is valid
(`PG_V`); if any level's entry is invalid it returns false.  The `hnz`
hypotheses are the source's stated assumption that a table cannot exist at
address 0, i.e. a valid entry never resolves to the null table address. -/
theorem mmu_map_inspect_va_spec
    (env : Env) (pm : Pmap) (pti : MmuMapIndex) (va : Nat) (w : World)
    (E : EnvGood env) (hs : pti.sanity = SANE) (hva : va ≤ VM_MAX_KERNEL_ADDRESS)
    (hroot : pm.pm_pml4 ≠ 0)
    (hnz1 : w.mem (pm.pm_pml4 + 8 * pml4t_index va) &&& PG_V ≠ 0 →
      resolvedPdptPhys env pm va w ≠ 0)
    (hnz2 : w.mem (resolvedPdptVa env pm va w + 8 * pdpt_index va) &&& PG_V ≠ 0 →
      resolvedPdtPhys env pm va w ≠ 0)
    (hnz3 : w.mem (resolvedPdtVa env pm va w + 8 * pdt_index va) &&& PG_V ≠ 0 →
      resolvedPtPhys env pm va w ≠ 0) :
    ∃ (found : Bool) (pti2 : MmuMapIndex) (w2 : World),
      mmu_map_inspect_va env pm pti va w = .ok (found, pti2, w2) ∧
      w2.mem = w.mem ∧ w2.pending = w.pending ∧ w2.allocSupply = w.allocSupply ∧
      (∃ E2, w2.events = w.events ++ E2 ∧ ∀ e ∈ E2, ∃ a, e = Event.readE a) ∧
      (found = true ↔
        (w.mem (pm.pm_pml4 + 8 * pml4t_index va) &&& PG_V ≠ 0 ∧
         w.mem (resolvedPdptVa env pm va w + 8 * pdpt_index va) &&& PG_V ≠ 0 ∧
         w.mem (resolvedPdtVa env pm va w + 8 * pdt_index va) &&& PG_V ≠ 0)) ∧
      (found = true →
        pti2 = { pti with pml4t := pm.pm_pml4, pdpt := resolvedPdptVa env pm va w,
                          pdt := resolvedPdtVa env pm va w,
                          pt := resolvedPtVa env pm va w } ∧
        pti2.pml4t ≠ 0 ∧ pti2.pdpt ≠ 0 ∧ pti2.pdt ≠ 0 ∧ pti2.pt ≠ 0) := by
  by_cases h1 : resolvedPdptPhys env pm va w = 0
  · refine ⟨false, _, _, inspect_stop1 env pm pti va w hs hva hroot h1, rfl, rfl, rfl,
      ⟨[Event.readE (pm.pm_pml4 + 8 * pml4t_index va)], rfl, ?_⟩, ?_, by simp⟩
    · intro e he
      simp only [List.mem_singleton] at he
      exact ⟨_, he⟩
    · simp only [Bool.false_eq_true, false_iff]
      rintro ⟨v1, -, -⟩
      exact (hnz1 v1) h1
  · by_cases h2 : resolvedPdtPhys env pm va w = 0
    · refine ⟨false, _, _, inspect_stop2 env E pm pti va w hs hva hroot h1 h2, rfl, rfl, rfl,
        ⟨[Event.readE (pm.pm_pml4 + 8 * pml4t_index va),
          Event.readE (resolvedPdptVa env pm va w + 8 * pdpt_index va)], ?_, ?_⟩, ?_, by simp⟩
      · simp [pushEvent]
      · intro e he
        simp only [List.mem_cons, List.mem_singleton, List.not_mem_nil, or_false] at he
        rcases he with he | he <;> exact ⟨_, he⟩
      · simp only [Bool.false_eq_true, false_iff]
        rintro ⟨-, v2, -⟩
        exact (hnz2 v2) h2
    · by_cases h3 : resolvedPtPhys env pm va w = 0
      · refine ⟨false, _, _, inspect_stop3 env E pm pti va w hs hva hroot h1 h2 h3, rfl, rfl,
          rfl,
          ⟨[Event.readE (pm.pm_pml4 + 8 * pml4t_index va),
            Event.readE (resolvedPdptVa env pm va w + 8 * pdpt_index va),
            Event.readE (resolvedPdtVa env pm va w + 8 * pdt_index va)], ?_, ?_⟩, ?_, by simp⟩
        · simp [pushEvent]
        · intro e he
          simp only [List.mem_cons, List.mem_singleton, List.not_mem_nil, or_false] at he
          rcases he with he | he | he <;> exact ⟨_, he⟩
        · simp only [Bool.false_eq_true, false_iff]
          rintro ⟨-, -, v3⟩
          exact (hnz3 v3) h3
      · refine ⟨true, _, _, inspect_found env E pm pti va w hs hva hroot h1 h2 h3, rfl, rfl,
          rfl,
          ⟨[Event.readE (pm.pm_pml4 + 8 * pml4t_index va),
            Event.readE (resolvedPdptVa env pm va w + 8 * pdpt_index va),
            Event.readE (resolvedPdtVa env pm va w + 8 * pdt_index va)], ?_, ?_⟩, ?_, ?_⟩
        · simp [pushEvent]
        · intro e he
          simp only [List.mem_cons, List.mem_singleton, List.not_mem_nil, or_false] at he
          rcases he with he | he | he <;> exact ⟨_, he⟩
        · simp only [true_iff]
          exact ⟨levelPhys_ne_zero_valid env w.mem _ h1, levelPhys_ne_zero_valid env w.mem _ h2,
            levelPhys_ne_zero_valid env w.mem _ h3⟩
        · intro _
          exact ⟨rfl, hroot, E.ptov_ne _ h1, E.ptov_ne _ h2, E.ptov_ne _ h3⟩

lemma mbAlloc_cons (w : World) (p : Nat) (rest : List Nat) (h : w.allocSupply = p :: rest) :
    mbAlloc w = (p, { w with mem := zeroPage w.mem p, allocSupply := rest,
                             events := w.events ++ [Event.allocE p] }) := by
  unfold mbAlloc
  rw [h]

lemma hold_shape_AAA (env : Env) (E : EnvGood env) (pm : Pmap) (pti : MmuMapIndex)
    (va : Nat) (w : World) (p1 p2 p3 : Nat) (rest : List Nat)
    (hs : pti.sanity = SANE) (hva : va ≤ VM_MAX_KERNEL_ADDRESS)
    (hroot : pm.pm_pml4 ≠ 0) (hrootal : pm.pm_pml4 % PAGE_SIZE = 0)
    (hsup : w.allocSupply = p1 :: p2 :: p3 :: rest)
    (hp1 : PageFit env p1) (hp2 : PageFit env p2) (_hp3 : PageFit env p3)
    (hpend : w.pending = [])
    (h1r : p1 ≠ pm.pm_pml4) (h12 : p1 ≠ p2)
    (h1 : resolvedPdptPhys env pm va w = 0) :
    mmu_map_hold_va env pm pti va w =
      .ok (true,
        { pti with pml4t := pm.pm_pml4, pdpt := p1, pdt := p2, pt := p3 },
        { mem := writeSlot (zeroPage (writeSlot (zeroPage (writeSlot (zeroPage w.mem p1)
                   (pm.pm_pml4 + 8 * pml4t_index va) (pteFor env p1)) p2)
                   (p1 + 8 * pdpt_index va) (pteFor env p2)) p3)
                   (p2 + 8 * pdt_index va) (pteFor env p3),
          pending := [], allocSupply := rest,
          events := w.events ++ [Event.readE (pm.pm_pml4 + 8 * pml4t_index va)]
            ++ allocBlock env (pm.pm_pml4 + 8 * pml4t_index va) p1
            ++ [Event.readE (p1 + 8 * pdpt_index va)]
            ++ allocBlock env (p1 + 8 * pdpt_index va) p2
            ++ [Event.readE (p2 + 8 * pdt_index va)]
            ++ allocBlock env (p2 + 8 * pdt_index va) p3 }) := by
  obtain ⟨hp1z, hp1al, -, -, -⟩ := hp1
  obtain ⟨hp2z, hp2al, -, -, -⟩ := hp2
  simp only [resolvedPdptPhys] at h1
  unfold mmu_map_hold_va
  rw [if_neg (by simp [hs])]
  rw [pmap_get_pml4t_ok pm hroot]
  simp only []
  rw [pmap_get_pdpt_ok env va pm.pm_pml4 w hva hroot]
  simp only [h1, if_true]
  rw [mbAlloc_cons (pushEvent w (Event.readE (pm.pm_pml4 + 8 * pml4t_index va)))
    p1 (p2 :: p3 :: rest) hsup]
  simp only []
  rw [flush_single env _ (by exact hpend)]
  rw [slotMa_inv env E]
  simp only [pushEvent]
  -- level 2
  rw [pmap_get_pdt_ok env va p1 _ hva hp1z]
  have hm3 : (writeSlot (zeroPage w.mem p1) (pm.pm_pml4 + 8 * pml4t_index va)
      (pteFor env p1)) (p1 + 8 * pdpt_index va) = 0 := by
    rw [writeSlot_ne _ _ _ _ (slot_ne_of_page_ne p1 pm.pm_pml4 (pdpt_index va)
      (pml4t_index va) hp1al hrootal h1r (pdpt_index_lt va) (pml4t_index_lt va)),
      zeroPage_in _ _ _ (slot_in_page p1 (pdpt_index va) hp1al (pdpt_index_lt va)).1
        (slot_in_page p1 (pdpt_index va) hp1al (pdpt_index_lt va)).2]
  rw [levelPhys_invalid env _ _ (by dsimp only; rw [hm3]; decide)]
  simp only [if_true]
  rw [mbAlloc_cons _ p2 (p3 :: rest) (by exact rfl)]
  simp only []
  rw [flush_single env _ (by exact rfl)]
  rw [slotMa_inv env E]
  simp only [pushEvent]
  -- level 3
  rw [pmap_get_pt_ok env va p2 _ hva hp2z]
  have hm2 : (writeSlot (zeroPage (writeSlot (zeroPage w.mem p1)
      (pm.pm_pml4 + 8 * pml4t_index va) (pteFor env p1)) p2)
      (p1 + 8 * pdpt_index va) (pteFor env p2)) (p2 + 8 * pdt_index va) = 0 := by
    rw [writeSlot_ne _ _ _ _ (slot_ne_of_page_ne p2 p1 (pdt_index va)
      (pdpt_index va) hp2al hp1al (Ne.symm h12) (pdt_index_lt va) (pdpt_index_lt va)),
      zeroPage_in _ _ _ (slot_in_page p2 (pdt_index va) hp2al (pdt_index_lt va)).1
        (slot_in_page p2 (pdt_index va) hp2al (pdt_index_lt va)).2]
  rw [levelPhys_invalid env _ _ (by dsimp only; rw [hm2]; decide)]
  simp only [if_true]
  rw [mbAlloc_cons _ p3 rest (by exact rfl)]
  simp only []
  rw [flush_single env _ (by exact rfl)]
  rw [slotMa_inv env E]
  simp [pushEvent, allocBlock, List.append_assoc]

lemma levelPhys_aligned (env : Env) (E : EnvGood env) (m : Nat → Nat) (slot : Nat)
    (h : levelPhys env m slot ≠ 0) : levelPhys env m slot % PAGE_SIZE = 0 := by
  rw [levelPhys] at h ⊢
  by_cases hv : m slot &&& PG_V = 0
  · rw [if_pos hv] at h
    exact absurd rfl h
  · rw [if_neg hv]
    exact E.mtop_align _ (frame_and_aligned _)

lemma resolvedPdptVa_aligned (env : Env) (E : EnvGood env) (pm : Pmap) (va : Nat) (w : World)
    (h : resolvedPdptPhys env pm va w ≠ 0) : resolvedPdptVa env pm va w % PAGE_SIZE = 0 :=
  E.ptov_align _ (levelPhys_aligned env E _ _ h)

lemma resolvedPdtVa_aligned (env : Env) (E : EnvGood env) (pm : Pmap) (va : Nat) (w : World)
    (h : resolvedPdtPhys env pm va w ≠ 0) : resolvedPdtVa env pm va w % PAGE_SIZE = 0 :=
  E.ptov_align _ (levelPhys_aligned env E _ _ h)

lemma hold_shape_PAA (env : Env) (E : EnvGood env) (pm : Pmap) (pti : MmuMapIndex)
    (va : Nat) (w : World) (p1 p2 p3 : Nat) (rest : List Nat)
    (hs : pti.sanity = SANE) (hva : va ≤ VM_MAX_KERNEL_ADDRESS)
    (hroot : pm.pm_pml4 ≠ 0)
    (hsup : w.allocSupply = p1 :: p2 :: p3 :: rest)
    (hp1 : PageFit env p1)
    (hpend : w.pending = [])
    (ht1p1 : resolvedPdptVa env pm va w ≠ p1)
    (h1 : resolvedPdptPhys env pm va w ≠ 0) (h2 : resolvedPdtPhys env pm va w = 0) :
    mmu_map_hold_va env pm pti va w =
      .ok (true,
        { pti with pml4t := pm.pm_pml4, pdpt := resolvedPdptVa env pm va w,
                   pdt := p1, pt := p2 },
        { mem := writeSlot (zeroPage (writeSlot (zeroPage w.mem p1)
                   (resolvedPdptVa env pm va w + 8 * pdpt_index va) (pteFor env p1)) p2)
                   (p1 + 8 * pdt_index va) (pteFor env p2),
          pending := [], allocSupply := p3 :: rest,
          events := w.events ++ [Event.readE (pm.pm_pml4 + 8 * pml4t_index va)]
            ++ [Event.readE (resolvedPdptVa env pm va w + 8 * pdpt_index va)]
            ++ allocBlock env (resolvedPdptVa env pm va w + 8 * pdpt_index va) p1
            ++ [Event.readE (p1 + 8 * pdt_index va)]
            ++ allocBlock env (p1 + 8 * pdt_index va) p2 }) := by
  obtain ⟨hp1z, hp1al, -, -, -⟩ := hp1
  have ht1z : resolvedPdptVa env pm va w ≠ 0 := E.ptov_ne _ h1
  have ht1al : resolvedPdptVa env pm va w % PAGE_SIZE = 0 :=
    resolvedPdptVa_aligned env E pm va w h1
  simp only [resolvedPdtPhys, resolvedPdptVa, resolvedPdptPhys] at *
  unfold mmu_map_hold_va
  rw [if_neg (by simp [hs])]
  rw [pmap_get_pml4t_ok pm hroot]
  simp only []
  rw [pmap_get_pdpt_ok env va pm.pm_pml4 w hva hroot]
  simp only [if_neg h1]
  rw [pmap_get_pdt_ok env va _ _ hva ht1z]
  simp only [pushEvent]
  simp only [h2, if_true]
  rw [mbAlloc_cons _ p1 (p2 :: p3 :: rest) (by exact hsup)]
  simp only []
  rw [flush_single env _ (by exact hpend)]
  rw [slotMa_inv env E]
  simp only []
  rw [pmap_get_pt_ok env va p1 _ hva hp1z]
  have hm2 : (writeSlot (zeroPage w.mem p1)
      (env.ptov (levelPhys env w.mem (pm.pm_pml4 + 8 * pml4t_index va)) + 8 * pdpt_index va)
      (pteFor env p1)) (p1 + 8 * pdt_index va) = 0 := by
    rw [writeSlot_ne _ _ _ _ (slot_ne_of_page_ne p1 _ (pdt_index va)
      (pdpt_index va) hp1al ht1al (Ne.symm ht1p1) (pdt_index_lt va) (pdpt_index_lt va)),
      zeroPage_in _ _ _ (slot_in_page p1 (pdt_index va) hp1al (pdt_index_lt va)).1
        (slot_in_page p1 (pdt_index va) hp1al (pdt_index_lt va)).2]
  rw [levelPhys_invalid env _ _ (by dsimp only; rw [hm2]; decide)]
  simp only [if_true]
  rw [mbAlloc_cons _ p2 (p3 :: rest) (by exact rfl)]
  simp only []
  rw [flush_single env _ (by exact rfl)]
  rw [slotMa_inv env E]
  simp [pushEvent, allocBlock, List.append_assoc]

lemma hold_shape_PPA (env : Env) (E : EnvGood env) (pm : Pmap) (pti : MmuMapIndex)
    (va : Nat) (w : World) (p1 p2 p3 : Nat) (rest : List Nat)
    (hs : pti.sanity = SANE) (hva : va ≤ VM_MAX_KERNEL_ADDRESS)
    (hroot : pm.pm_pml4 ≠ 0)
    (hsup : w.allocSupply = p1 :: p2 :: p3 :: rest)
    (_hp1 : PageFit env p1)
    (hpend : w.pending = [])
    (h1 : resolvedPdptPhys env pm va w ≠ 0) (h2 : resolvedPdtPhys env pm va w ≠ 0)
    (h3 : resolvedPtPhys env pm va w = 0) :
    mmu_map_hold_va env pm pti va w =
      .ok (true,
        { pti with pml4t := pm.pm_pml4, pdpt := resolvedPdptVa env pm va w,
                   pdt := resolvedPdtVa env pm va w, pt := p1 },
        { mem := writeSlot (zeroPage w.mem p1)
                   (resolvedPdtVa env pm va w + 8 * pdt_index va) (pteFor env p1),
          pending := [], allocSupply := p2 :: p3 :: rest,
          events := w.events ++ [Event.readE (pm.pm_pml4 + 8 * pml4t_index va)]
            ++ [Event.readE (resolvedPdptVa env pm va w + 8 * pdpt_index va)]
            ++ [Event.readE (resolvedPdtVa env pm va w + 8 * pdt_index va)]
            ++ allocBlock env (resolvedPdtVa env pm va w + 8 * pdt_index va) p1 }) := by
  have ht1z : resolvedPdptVa env pm va w ≠ 0 := E.ptov_ne _ h1
  have ht2z : resolvedPdtVa env pm va w ≠ 0 := E.ptov_ne _ h2
  simp only [resolvedPtPhys, resolvedPdtVa, resolvedPdtPhys, resolvedPdptVa,
    resolvedPdptPhys] at *
  unfold mmu_map_hold_va
  rw [if_neg (by simp [hs])]
  rw [pmap_get_pml4t_ok pm hroot]
  simp only []
  rw [pmap_get_pdpt_ok env va pm.pm_pml4 w hva hroot]
  simp only [if_neg h1]
  rw [pmap_get_pdt_ok env va _ _ hva ht1z]
  simp only [pushEvent]
  simp only [if_neg h2]
  rw [pmap_get_pt_ok env va _ _ hva ht2z]
  simp only [pushEvent]
  simp only [h3, if_true]
  rw [mbAlloc_cons _ p1 (p2 :: p3 :: rest) (by exact hsup)]
  simp only []
  rw [flush_single env _ (by exact hpend)]
  rw [slotMa_inv env E]
  simp [pushEvent, allocBlock, List.append_assoc]


lemma levelPhys_congr (env : Env) (m m2 : Nat → Nat) (slot : Nat) (h : m slot = m2 slot) :
    levelPhys env m slot = levelPhys env m2 slot := by
  rw [levelPhys, levelPhys, h]

lemma vtop_ne_of_fit (env : Env) (p : Nat) (hp : PageFit env p) : env.vtop p ≠ 0 := hp.2.2.1

lemma postchain_AAA (env : Env) (E : EnvGood env) (pm : Pmap) (pti : MmuMapIndex)
    (va : Nat) (w : World) (p1 p2 p3 : Nat) (rest : List Nat)
    (hs : pti.sanity = SANE)
    (hrootal : pm.pm_pml4 % PAGE_SIZE = 0)
    (hp1 : PageFit env p1) (hp2 : PageFit env p2) (hp3 : PageFit env p3)
    (h1r : p1 ≠ pm.pm_pml4) (h2r : p2 ≠ pm.pm_pml4) (h3r : p3 ≠ pm.pm_pml4)
    (h12 : p1 ≠ p2) (h13 : p1 ≠ p3) (_h23 : p2 ≠ p3) :
    PostChain env pm
      { pti with pml4t := pm.pm_pml4, pdpt := p1, pdt := p2, pt := p3 } va
      { mem := writeSlot (zeroPage (writeSlot (zeroPage (writeSlot (zeroPage w.mem p1)
                 (pm.pm_pml4 + 8 * pml4t_index va) (pteFor env p1)) p2)
                 (p1 + 8 * pdpt_index va) (pteFor env p2)) p3)
                 (p2 + 8 * pdt_index va) (pteFor env p3),
        pending := [], allocSupply := rest,
        events := w.events ++ [Event.readE (pm.pm_pml4 + 8 * pml4t_index va)]
          ++ allocBlock env (pm.pm_pml4 + 8 * pml4t_index va) p1
          ++ [Event.readE (p1 + 8 * pdpt_index va)]
          ++ allocBlock env (p1 + 8 * pdpt_index va) p2
          ++ [Event.readE (p2 + 8 * pdt_index va)]
          ++ allocBlock env (p2 + 8 * pdt_index va) p3 } := by
  have hp1al := hp1.2.1
  have hp2al := hp2.2.1
  have hp3al := hp3.2.1
  have hs4 : (writeSlot (zeroPage (writeSlot (zeroPage (writeSlot (zeroPage w.mem p1)
      (pm.pm_pml4 + 8 * pml4t_index va) (pteFor env p1)) p2)
      (p1 + 8 * pdpt_index va) (pteFor env p2)) p3)
      (p2 + 8 * pdt_index va) (pteFor env p3)) (pm.pm_pml4 + 8 * pml4t_index va) =
      pteFor env p1 := by
    rw [writeSlot_ne _ _ _ _ (slot_ne_of_page_ne pm.pm_pml4 p2 (pml4t_index va)
        (pdt_index va) hrootal hp2al (Ne.symm h2r) (pml4t_index_lt va) (pdt_index_lt va)),
      zeroPage_out _ _ _ (slot_out_of_page p3 pm.pm_pml4 (pml4t_index va) hp3al hrootal
        (Ne.symm h3r) (pml4t_index_lt va)),
      writeSlot_ne _ _ _ _ (slot_ne_of_page_ne pm.pm_pml4 p1 (pml4t_index va)
        (pdpt_index va) hrootal hp1al (Ne.symm h1r) (pml4t_index_lt va) (pdpt_index_lt va)),
      zeroPage_out _ _ _ (slot_out_of_page p2 pm.pm_pml4 (pml4t_index va) hp2al hrootal
        (Ne.symm h2r) (pml4t_index_lt va)),
      writeSlot_same]
  have hs3 : (writeSlot (zeroPage (writeSlot (zeroPage (writeSlot (zeroPage w.mem p1)
      (pm.pm_pml4 + 8 * pml4t_index va) (pteFor env p1)) p2)
      (p1 + 8 * pdpt_index va) (pteFor env p2)) p3)
      (p2 + 8 * pdt_index va) (pteFor env p3)) (p1 + 8 * pdpt_index va) =
      pteFor env p2 := by
    rw [writeSlot_ne _ _ _ _ (slot_ne_of_page_ne p1 p2 (pdpt_index va)
        (pdt_index va) hp1al hp2al h12 (pdpt_index_lt va) (pdt_index_lt va)),
      zeroPage_out _ _ _ (slot_out_of_page p3 p1 (pdpt_index va) hp3al hp1al
        h13 (pdpt_index_lt va)),
      writeSlot_same]
  have hs2 : (writeSlot (zeroPage (writeSlot (zeroPage (writeSlot (zeroPage w.mem p1)
      (pm.pm_pml4 + 8 * pml4t_index va) (pteFor env p1)) p2)
      (p1 + 8 * pdpt_index va) (pteFor env p2)) p3)
      (p2 + 8 * pdt_index va) (pteFor env p3)) (p2 + 8 * pdt_index va) =
      pteFor env p3 := by
    rw [writeSlot_same]
  have c1 : resolvedPdptPhys env pm va
      { mem := writeSlot (zeroPage (writeSlot (zeroPage (writeSlot (zeroPage w.mem p1)
                 (pm.pm_pml4 + 8 * pml4t_index va) (pteFor env p1)) p2)
                 (p1 + 8 * pdpt_index va) (pteFor env p2)) p3)
                 (p2 + 8 * pdt_index va) (pteFor env p3),
        pending := [], allocSupply := rest,
        events := w.events ++ [Event.readE (pm.pm_pml4 + 8 * pml4t_index va)]
          ++ allocBlock env (pm.pm_pml4 + 8 * pml4t_index va) p1
          ++ [Event.readE (p1 + 8 * pdpt_index va)]
          ++ allocBlock env (p1 + 8 * pdpt_index va) p2
          ++ [Event.readE (p2 + 8 * pdt_index va)]
          ++ allocBlock env (p2 + 8 * pdt_index va) p3 } = env.vtop p1 := by
    rw [resolvedPdptPhys]
    exact levelPhys_pteFor env E _ _ p1 hp1 hs4
  refine ⟨hs, rfl, ?_, ?_, hp1.1, ?_, ?_, hp2.1, ?_, ?_, hp3.1⟩
  · rw [c1]
    exact vtop_ne_of_fit env p1 hp1
  · show resolvedPdptVa env pm va _ = p1
    rw [resolvedPdptVa, c1, E.ptov_vtop]
  · rw [resolvedPdtPhys, resolvedPdptVa, c1, E.ptov_vtop]
    show levelPhys env _ (p1 + 8 * pdpt_index va) ≠ 0
    rw [levelPhys_pteFor env E _ _ p2 hp2 hs3]
    exact vtop_ne_of_fit env p2 hp2
  · show resolvedPdtVa env pm va _ = p2
    rw [resolvedPdtVa, resolvedPdtPhys, resolvedPdptVa, c1, E.ptov_vtop]
    rw [show levelPhys env _ (p1 + 8 * pdpt_index va) = env.vtop p2 from
      levelPhys_pteFor env E _ _ p2 hp2 hs3]
    exact E.ptov_vtop p2
  · rw [resolvedPtPhys, resolvedPdtVa, resolvedPdtPhys, resolvedPdptVa, c1, E.ptov_vtop]
    rw [show levelPhys env _ (p1 + 8 * pdpt_index va) = env.vtop p2 from
      levelPhys_pteFor env E _ _ p2 hp2 hs3, E.ptov_vtop]
    show levelPhys env _ (p2 + 8 * pdt_index va) ≠ 0
    rw [levelPhys_pteFor env E _ _ p3 hp3 hs2]
    exact vtop_ne_of_fit env p3 hp3
  · show resolvedPtVa env pm va _ = p3
    rw [resolvedPtVa, resolvedPtPhys, resolvedPdtVa, resolvedPdtPhys, resolvedPdptVa, c1,
      E.ptov_vtop]
    rw [show levelPhys env _ (p1 + 8 * pdpt_index va) = env.vtop p2 from
      levelPhys_pteFor env E _ _ p2 hp2 hs3, E.ptov_vtop]
    rw [show levelPhys env _ (p2 + 8 * pdt_index va) = env.vtop p3 from
      levelPhys_pteFor env E _ _ p3 hp3 hs2]
    exact E.ptov_vtop p3

lemma postchain_PAA (env : Env) (E : EnvGood env) (pm : Pmap) (pti : MmuMapIndex)
    (va : Nat) (w : World) (p1 p2 p3 : Nat) (rest : List Nat)
    (hs : pti.sanity = SANE)
    (hrootal : pm.pm_pml4 % PAGE_SIZE = 0)
    (hp1 : PageFit env p1) (hp2 : PageFit env p2)
    (h1r : p1 ≠ pm.pm_pml4) (h2r : p2 ≠ pm.pm_pml4) (_h12 : p1 ≠ p2)
    (h1 : resolvedPdptPhys env pm va w ≠ 0)
    (ht1r : resolvedPdptVa env pm va w ≠ pm.pm_pml4)
    (ht1p1 : resolvedPdptVa env pm va w ≠ p1)
    (ht1p2 : resolvedPdptVa env pm va w ≠ p2) :
    PostChain env pm
      { pti with pml4t := pm.pm_pml4, pdpt := resolvedPdptVa env pm va w,
                 pdt := p1, pt := p2 } va
      { mem := writeSlot (zeroPage (writeSlot (zeroPage w.mem p1)
                 (resolvedPdptVa env pm va w + 8 * pdpt_index va) (pteFor env p1)) p2)
                 (p1 + 8 * pdt_index va) (pteFor env p2),
        pending := [], allocSupply := p3 :: rest,
        events := w.events ++ [Event.readE (pm.pm_pml4 + 8 * pml4t_index va)]
          ++ [Event.readE (resolvedPdptVa env pm va w + 8 * pdpt_index va)]
          ++ allocBlock env (resolvedPdptVa env pm va w + 8 * pdpt_index va) p1
          ++ [Event.readE (p1 + 8 * pdt_index va)]
          ++ allocBlock env (p1 + 8 * pdt_index va) p2 } := by
  have hp1al := hp1.2.1
  have hp2al := hp2.2.1
  have ht1al : resolvedPdptVa env pm va w % PAGE_SIZE = 0 :=
    resolvedPdptVa_aligned env E pm va w h1
  unfold PostChain
  simp only [resolvedPtVa, resolvedPtPhys, resolvedPdtVa, resolvedPdtPhys, resolvedPdptVa,
    resolvedPdptPhys] at *
  have hs4 : (writeSlot (zeroPage (writeSlot (zeroPage w.mem p1)
      (env.ptov (levelPhys env w.mem (pm.pm_pml4 + 8 * pml4t_index va)) + 8 * pdpt_index va)
      (pteFor env p1)) p2)
      (p1 + 8 * pdt_index va) (pteFor env p2)) (pm.pm_pml4 + 8 * pml4t_index va) =
      w.mem (pm.pm_pml4 + 8 * pml4t_index va) := by
    rw [writeSlot_ne _ _ _ _ (slot_ne_of_page_ne pm.pm_pml4 p1 (pml4t_index va)
        (pdt_index va) hrootal hp1al (Ne.symm h1r) (pml4t_index_lt va) (pdt_index_lt va)),
      zeroPage_out _ _ _ (slot_out_of_page p2 pm.pm_pml4 (pml4t_index va) hp2al hrootal
        (Ne.symm h2r) (pml4t_index_lt va)),
      writeSlot_ne _ _ _ _ (slot_ne_of_page_ne pm.pm_pml4
        (env.ptov (levelPhys env w.mem (pm.pm_pml4 + 8 * pml4t_index va)))
        (pml4t_index va) (pdpt_index va) hrootal ht1al (Ne.symm ht1r)
        (pml4t_index_lt va) (pdpt_index_lt va)),
      zeroPage_out _ _ _ (slot_out_of_page p1 pm.pm_pml4 (pml4t_index va) hp1al hrootal
        (Ne.symm h1r) (pml4t_index_lt va))]
  have c1 : levelPhys env (writeSlot (zeroPage (writeSlot (zeroPage w.mem p1)
      (env.ptov (levelPhys env w.mem (pm.pm_pml4 + 8 * pml4t_index va)) + 8 * pdpt_index va)
      (pteFor env p1)) p2)
      (p1 + 8 * pdt_index va) (pteFor env p2)) (pm.pm_pml4 + 8 * pml4t_index va) =
      levelPhys env w.mem (pm.pm_pml4 + 8 * pml4t_index va) :=
    levelPhys_congr env _ _ _ hs4
  rw [c1]
  have hs3 : (writeSlot (zeroPage (writeSlot (zeroPage w.mem p1)
      (env.ptov (levelPhys env w.mem (pm.pm_pml4 + 8 * pml4t_index va)) + 8 * pdpt_index va)
      (pteFor env p1)) p2)
      (p1 + 8 * pdt_index va) (pteFor env p2))
      (env.ptov (levelPhys env w.mem (pm.pm_pml4 + 8 * pml4t_index va)) + 8 * pdpt_index va) =
      pteFor env p1 := by
    rw [writeSlot_ne _ _ _ _ (slot_ne_of_page_ne
        (env.ptov (levelPhys env w.mem (pm.pm_pml4 + 8 * pml4t_index va))) p1
        (pdpt_index va) (pdt_index va) ht1al hp1al ht1p1
        (pdpt_index_lt va) (pdt_index_lt va)),
      zeroPage_out _ _ _ (slot_out_of_page p2
        (env.ptov (levelPhys env w.mem (pm.pm_pml4 + 8 * pml4t_index va)))
        (pdpt_index va) hp2al ht1al ht1p2 (pdpt_index_lt va)),
      writeSlot_same]
  rw [levelPhys_pteFor env E _ _ p1 hp1 hs3, E.ptov_vtop]
  rw [levelPhys_pteFor env E _ _ p2 hp2 (writeSlot_same _ _ _), E.ptov_vtop]
  refine ⟨hs, ?_, h1, ?_, E.ptov_ne _ h1, vtop_ne_of_fit env p1 hp1, ?_, hp1.1,
    vtop_ne_of_fit env p2 hp2, ?_, hp2.1⟩ <;> trivial

lemma postchain_PPA (env : Env) (E : EnvGood env) (pm : Pmap) (pti : MmuMapIndex)
    (va : Nat) (w : World) (p1 p2 p3 : Nat) (rest : List Nat)
    (hs : pti.sanity = SANE)
    (hrootal : pm.pm_pml4 % PAGE_SIZE = 0)
    (hp1 : PageFit env p1)
    (h1r : p1 ≠ pm.pm_pml4)
    (h1 : resolvedPdptPhys env pm va w ≠ 0) (h2 : resolvedPdtPhys env pm va w ≠ 0)
    (ht1p1 : resolvedPdptVa env pm va w ≠ p1)
    (ht2r : resolvedPdtVa env pm va w ≠ pm.pm_pml4)
    (ht2t1 : resolvedPdtVa env pm va w ≠ resolvedPdptVa env pm va w)
    (_ht2p1 : resolvedPdtVa env pm va w ≠ p1) :
    PostChain env pm
      { pti with pml4t := pm.pm_pml4, pdpt := resolvedPdptVa env pm va w,
                 pdt := resolvedPdtVa env pm va w, pt := p1 } va
      { mem := writeSlot (zeroPage w.mem p1)
                 (resolvedPdtVa env pm va w + 8 * pdt_index va) (pteFor env p1),
        pending := [], allocSupply := p2 :: p3 :: rest,
        events := w.events ++ [Event.readE (pm.pm_pml4 + 8 * pml4t_index va)]
          ++ [Event.readE (resolvedPdptVa env pm va w + 8 * pdpt_index va)]
          ++ [Event.readE (resolvedPdtVa env pm va w + 8 * pdt_index va)]
          ++ allocBlock env (resolvedPdtVa env pm va w + 8 * pdt_index va) p1 } := by
  have hp1al := hp1.2.1
  have ht1al : resolvedPdptVa env pm va w % PAGE_SIZE = 0 :=
    resolvedPdptVa_aligned env E pm va w h1
  have ht2al : resolvedPdtVa env pm va w % PAGE_SIZE = 0 :=
    resolvedPdtVa_aligned env E pm va w h2
  unfold PostChain
  simp only [resolvedPtVa, resolvedPtPhys, resolvedPdtVa, resolvedPdtPhys, resolvedPdptVa,
    resolvedPdptPhys] at *
  have hs4 : (writeSlot (zeroPage w.mem p1)
      (env.ptov (levelPhys env w.mem
        (env.ptov (levelPhys env w.mem (pm.pm_pml4 + 8 * pml4t_index va)) + 8 * pdpt_index va))
        + 8 * pdt_index va) (pteFor env p1)) (pm.pm_pml4 + 8 * pml4t_index va) =
      w.mem (pm.pm_pml4 + 8 * pml4t_index va) := by
    rw [writeSlot_ne _ _ _ _ (slot_ne_of_page_ne pm.pm_pml4
        (env.ptov (levelPhys env w.mem
          (env.ptov (levelPhys env w.mem (pm.pm_pml4 + 8 * pml4t_index va))
            + 8 * pdpt_index va)))
        (pml4t_index va) (pdt_index va) hrootal ht2al (Ne.symm ht2r)
        (pml4t_index_lt va) (pdt_index_lt va)),
      zeroPage_out _ _ _ (slot_out_of_page p1 pm.pm_pml4 (pml4t_index va) hp1al hrootal
        (Ne.symm h1r) (pml4t_index_lt va))]
  have c1 : levelPhys env (writeSlot (zeroPage w.mem p1)
      (env.ptov (levelPhys env w.mem
        (env.ptov (levelPhys env w.mem (pm.pm_pml4 + 8 * pml4t_index va)) + 8 * pdpt_index va))
        + 8 * pdt_index va) (pteFor env p1)) (pm.pm_pml4 + 8 * pml4t_index va) =
      levelPhys env w.mem (pm.pm_pml4 + 8 * pml4t_index va) :=
    levelPhys_congr env _ _ _ hs4
  rw [c1]
  have hs3 : (writeSlot (zeroPage w.mem p1)
      (env.ptov (levelPhys env w.mem
        (env.ptov (levelPhys env w.mem (pm.pm_pml4 + 8 * pml4t_index va)) + 8 * pdpt_index va))
        + 8 * pdt_index va) (pteFor env p1))
      (env.ptov (levelPhys env w.mem (pm.pm_pml4 + 8 * pml4t_index va)) + 8 * pdpt_index va) =
      w.mem (env.ptov (levelPhys env w.mem (pm.pm_pml4 + 8 * pml4t_index va))
        + 8 * pdpt_index va) := by
    rw [writeSlot_ne _ _ _ _ (slot_ne_of_page_ne
        (env.ptov (levelPhys env w.mem (pm.pm_pml4 + 8 * pml4t_index va)))
        (env.ptov (levelPhys env w.mem
          (env.ptov (levelPhys env w.mem (pm.pm_pml4 + 8 * pml4t_index va))
            + 8 * pdpt_index va)))
        (pdpt_index va) (pdt_index va) ht1al ht2al (Ne.symm ht2t1)
        (pdpt_index_lt va) (pdt_index_lt va)),
      zeroPage_out _ _ _ (slot_out_of_page p1
        (env.ptov (levelPhys env w.mem (pm.pm_pml4 + 8 * pml4t_index va)))
        (pdpt_index va) hp1al ht1al ht1p1 (pdpt_index_lt va))]
  have c2 : levelPhys env (writeSlot (zeroPage w.mem p1)
      (env.ptov (levelPhys env w.mem
        (env.ptov (levelPhys env w.mem (pm.pm_pml4 + 8 * pml4t_index va)) + 8 * pdpt_index va))
        + 8 * pdt_index va) (pteFor env p1))
      (env.ptov (levelPhys env w.mem (pm.pm_pml4 + 8 * pml4t_index va)) + 8 * pdpt_index va) =
      levelPhys env w.mem
        (env.ptov (levelPhys env w.mem (pm.pm_pml4 + 8 * pml4t_index va))
          + 8 * pdpt_index va) :=
    levelPhys_congr env _ _ _ hs3
  rw [c2]
  rw [levelPhys_pteFor env E _ _ p1 hp1 (writeSlot_same _ _ _), E.ptov_vtop]
  refine ⟨hs, ?_, h1, ?_, E.ptov_ne _ h1, h2, ?_, E.ptov_ne _ h2,
    vtop_ne_of_fit env p1 hp1, ?_, hp1.1⟩ <;> trivial

lemma postchain_PPP (env : Env) (E : EnvGood env) (pm : Pmap) (pti : MmuMapIndex)
    (va : Nat) (w : World)
    (hs : pti.sanity = SANE)
    (h1 : resolvedPdptPhys env pm va w ≠ 0) (h2 : resolvedPdtPhys env pm va w ≠ 0)
    (h3 : resolvedPtPhys env pm va w ≠ 0) :
    PostChain env pm
      { pti with pml4t := pm.pm_pml4, pdpt := resolvedPdptVa env pm va w,
                 pdt := resolvedPdtVa env pm va w, pt := resolvedPtVa env pm va w } va
      (pushEvent (pushEvent (pushEvent w
          (Event.readE (pm.pm_pml4 + 8 * pml4t_index va)))
        (Event.readE (resolvedPdptVa env pm va w + 8 * pdpt_index va)))
        (Event.readE (resolvedPdtVa env pm va w + 8 * pdt_index va))) :=
  ⟨hs, rfl, h1, rfl, E.ptov_ne _ h1, h2, rfl, E.ptov_ne _ h2, h3, rfl, E.ptov_ne _ h3⟩

lemma hold_establishes_postchain (env : Env) (pm : Pmap) (pti : MmuMapIndex) (va : Nat)
    (w : World) (h : HoldPre env pm pti va w) (b : Bool) (pti1 : MmuMapIndex) (w1 : World)
    (hh : mmu_map_hold_va env pm pti va w = .ok (b, pti1, w1)) :
    PostChain env pm pti1 va w1 ∧ w1.pending = [] := by
  obtain ⟨E, hs, hva, hpend, hroot, hrootal, p1, p2, p3, rest, hsup, hp1, hp2, hp3,
    h1r, h2r, h3r, h12, h13, h23, hcond⟩ := h
  by_cases h1 : resolvedPdptPhys env pm va w = 0
  · rw [hold_shape_AAA env E pm pti va w p1 p2 p3 rest hs hva hroot hrootal hsup
      hp1 hp2 hp3 hpend h1r h12 h1] at hh
    simp only [Except.ok.injEq, Prod.mk.injEq] at hh
    obtain ⟨-, hp', hw'⟩ := hh
    subst hp' hw'
    exact ⟨postchain_AAA env E pm pti va w p1 p2 p3 rest hs hrootal hp1 hp2 hp3
      h1r h2r h3r h12 h13 h23, rfl⟩
  · have hc1 := hcond h1
    by_cases h2 : resolvedPdtPhys env pm va w = 0
    · rw [hold_shape_PAA env E pm pti va w p1 p2 p3 rest hs hva hroot hsup hp1 hpend
        hc1.2.1 h1 h2] at hh
      simp only [Except.ok.injEq, Prod.mk.injEq] at hh
      obtain ⟨-, hp', hw'⟩ := hh
      subst hp' hw'
      exact ⟨postchain_PAA env E pm pti va w p1 p2 p3 rest hs hrootal hp1 hp2
        h1r h2r h12 h1 hc1.1 hc1.2.1 hc1.2.2.1, rfl⟩
    · have hc2 := hc1.2.2.2.2 h2
      by_cases h3 : resolvedPtPhys env pm va w = 0
      · rw [hold_shape_PPA env E pm pti va w p1 p2 p3 rest hs hva hroot hsup hp1 hpend
          h1 h2 h3] at hh
        simp only [Except.ok.injEq, Prod.mk.injEq] at hh
        obtain ⟨-, hp', hw'⟩ := hh
        subst hp' hw'
        exact ⟨postchain_PPA env E pm pti va w p1 p2 p3 rest hs hrootal hp1 h1r
          h1 h2 hc1.2.1 hc2.1 hc2.2.1 hc2.2.2.1, rfl⟩
      · rw [hold_all_present env E pm pti va w hs hva hroot h1 h2 h3] at hh
        simp only [Except.ok.injEq, Prod.mk.injEq] at hh
        obtain ⟨-, hp', hw'⟩ := hh
        subst hp' hw'
        exact ⟨postchain_PPP env E pm pti va w hs h1 h2 h3, hpend⟩

lemma inspect_of_postchain (env : Env) (E : EnvGood env) (pm : Pmap) (pti1 : MmuMapIndex)
    (va : Nat) (w1 : World) (hva : va ≤ VM_MAX_KERNEL_ADDRESS) (hroot : pm.pm_pml4 ≠ 0)
    (hpc : PostChain env pm pti1 va w1) :
    mmu_map_inspect_va env pm pti1 va w1 =
      .ok (true, pti1,
        pushEvent (pushEvent (pushEvent w1
            (Event.readE (pm.pm_pml4 + 8 * pml4t_index va)))
          (Event.readE (pti1.pdpt + 8 * pdpt_index va)))
          (Event.readE (pti1.pdt + 8 * pdt_index va))) := by
  obtain ⟨hs, hml4, h1, e1, hz1, h2, e2, hz2, h3, e3, hz3⟩ := hpc
  rw [inspect_found env E pm pti1 va w1 hs hva hroot h1 h2 h3, e1, e2, e3, ← hml4]

lemma hold_of_postchain (env : Env) (E : EnvGood env) (pm : Pmap) (pti1 : MmuMapIndex)
    (va : Nat) (w1 : World) (hva : va ≤ VM_MAX_KERNEL_ADDRESS) (hroot : pm.pm_pml4 ≠ 0)
    (hpc : PostChain env pm pti1 va w1) :
    mmu_map_hold_va env pm pti1 va w1 =
      .ok (false, pti1,
        pushEvent (pushEvent (pushEvent w1
            (Event.readE (pm.pm_pml4 + 8 * pml4t_index va)))
          (Event.readE (pti1.pdpt + 8 * pdpt_index va)))
          (Event.readE (pti1.pdt + 8 * pdt_index va))) := by
  obtain ⟨hs, hml4, h1, e1, hz1, h2, e2, hz2, h3, e3, hz3⟩ := hpc
  rw [hold_all_present env E pm pti1 va w1 hs hva hroot h1 h2 h3, e1, e2, e3, ← hml4]

/-- C5: `hold` is idempotent: from any well-separated state (`HoldPre`), if a
first `hold(v)` returns `(b, pti1, w1)` (its queued updates applied by the
flushes it performed), a second `hold(v)` on the same pmap from that state
performs no allocation (its trace adds only reads), returns allocated =
false, and leaves the four context table references literally identical
(`pti1` itself is returned). -/
theorem mmu_map_hold_va_idempotent (env : Env) (pm : Pmap) (pti : MmuMapIndex) (va : Nat)
    (w : World) (hpre : HoldPre env pm pti va w) (b : Bool) (pti1 : MmuMapIndex)
    (w1 : World) (hh : mmu_map_hold_va env pm pti va w = .ok (b, pti1, w1)) :
    ∃ w2 : World,
      mmu_map_hold_va env pm pti1 va w1 = .ok (false, pti1, w2) ∧
      w2.mem = w1.mem ∧ w2.allocSupply = w1.allocSupply ∧ w2.pending = w1.pending ∧
      (∃ E2, w2.events = w1.events ++ E2 ∧ ∀ e ∈ E2, ∃ a, e = Event.readE a) := by
  have E := hpre.1
  have hva := hpre.2.2.1
  have hroot := hpre.2.2.2.2.1
  have hpc := (hold_establishes_postchain env pm pti va w hpre b pti1 w1 hh).1
  refine ⟨_, hold_of_postchain env E pm pti1 va w1 hva hroot hpc, rfl, rfl, rfl,
    ⟨[Event.readE (pm.pm_pml4 + 8 * pml4t_index va),
      Event.readE (pti1.pdpt + 8 * pdpt_index va),
      Event.readE (pti1.pdt + 8 * pdt_index va)], ?_, ?_⟩⟩
  · simp [pushEvent]
  · intro e he
    simp only [List.mem_cons, List.mem_singleton, List.not_mem_nil, or_false] at he
    rcases he with he | he | he <;> exact ⟨_, he⟩

/-- C6: for all virtual addresses, `inspect(v)` run after a successful
`hold(v)` on the same pmap (no intervening release) returns found = true and
leaves in the context exactly the four table references the `hold` produced
(`pti1` itself); the inspect changes nothing but the read trace. -/
theorem mmu_map_inspect_after_hold (env : Env) (pm : Pmap) (pti : MmuMapIndex) (va : Nat)
    (w : World) (hpre : HoldPre env pm pti va w) (b : Bool) (pti1 : MmuMapIndex)
    (w1 : World) (hh : mmu_map_hold_va env pm pti va w = .ok (b, pti1, w1)) :
    ∃ w2 : World,
      mmu_map_inspect_va env pm pti1 va w1 = .ok (true, pti1, w2) ∧
      w2.mem = w1.mem ∧ w2.allocSupply = w1.allocSupply ∧ w2.pending = w1.pending := by
  have E := hpre.1
  have hva := hpre.2.2.1
  have hroot := hpre.2.2.2.2.1
  have hpc := (hold_establishes_postchain env pm pti va w hpre b pti1 w1 hh).1
  exact ⟨_, inspect_of_postchain env E pm pti1 va w1 hva hroot hpc, rfl, rfl, rfl⟩

/-- C9: the update protocol of `hold`.  For every level whose governing entry
does not resolve (its allocation flag `bᵢ` is true), the trace contains, in
top-down (root-to-leaf) order, an `allocBlock`: the allocation of the new
table, a single queued update written at the parent slot's machine address
whose value is the new table's machine frame OR'd with exactly
`PG_RW|PG_V|PG_U`, immediately followed by a flush.  Allocation at a level
forces allocation at all deeper levels (`b1 → b2 → b3`), a level is allocated
exactly when its governing entry fails to resolve, and the returned flag is
`b1 || b2 || b3`, i.e. true iff at least one level was allocated. -/
theorem mmu_map_hold_va_protocol (env : Env) (pm : Pmap) (pti : MmuMapIndex) (va : Nat)
    (w : World) (hpre : HoldPre env pm pti va w) :
    ∃ (b1 b2 b3 : Bool) (pti1 : MmuMapIndex) (w1 : World),
      mmu_map_hold_va env pm pti va w = .ok ((b1 || b2 || b3), pti1, w1) ∧
      (b1 = true → b2 = true) ∧ (b2 = true → b3 = true) ∧
      (b1 = true ↔ resolvedPdptPhys env pm va w = 0) ∧
      (b1 = false → (b2 = true ↔ resolvedPdtPhys env pm va w = 0)) ∧
      (b2 = false → (b3 = true ↔ resolvedPtPhys env pm va w = 0)) ∧
      w1.events = w.events
        ++ [Event.readE (pm.pm_pml4 + 8 * pml4t_index va)]
        ++ (cond b1 (allocBlock env (pm.pm_pml4 + 8 * pml4t_index va) pti1.pdpt) [])
        ++ [Event.readE (pti1.pdpt + 8 * pdpt_index va)]
        ++ (cond b2 (allocBlock env (pti1.pdpt + 8 * pdpt_index va) pti1.pdt) [])
        ++ [Event.readE (pti1.pdt + 8 * pdt_index va)]
        ++ (cond b3 (allocBlock env (pti1.pdt + 8 * pdt_index va) pti1.pt) []) := by
  obtain ⟨E, hs, hva, hpend, hroot, hrootal, p1, p2, p3, rest, hsup, hp1, hp2, hp3,
    h1r, h2r, h3r, h12, h13, h23, hcond⟩ := hpre
  by_cases h1 : resolvedPdptPhys env pm va w = 0
  · refine ⟨true, true, true, _, _,
      hold_shape_AAA env E pm pti va w p1 p2 p3 rest hs hva hroot hrootal hsup
        hp1 hp2 hp3 hpend h1r h12 h1,
      fun _ => rfl, fun _ => rfl, ⟨fun _ => h1, fun _ => rfl⟩,
      by simp, by simp, ?_⟩
    simp [allocBlock, List.append_assoc]
  · have hc1 := hcond h1
    by_cases h2 : resolvedPdtPhys env pm va w = 0
    · refine ⟨false, true, true, _, _,
        hold_shape_PAA env E pm pti va w p1 p2 p3 rest hs hva hroot hsup hp1 hpend
          hc1.2.1 h1 h2,
        by simp, fun _ => rfl, ⟨by simp, fun hf => absurd hf h1⟩,
        fun _ => ⟨fun _ => h2, fun _ => rfl⟩, by simp, ?_⟩
      simp [allocBlock, List.append_assoc]
    · have hc2 := hc1.2.2.2.2 h2
      by_cases h3 : resolvedPtPhys env pm va w = 0
      · refine ⟨false, false, true, _, _,
          hold_shape_PPA env E pm pti va w p1 p2 p3 rest hs hva hroot hsup hp1 hpend
            h1 h2 h3,
          by simp, by simp, ⟨by simp, fun hf => absurd hf h1⟩,
          fun _ => ⟨fun hf => Bool.noConfusion hf, fun hf => absurd hf h2⟩,
          fun _ => ⟨fun _ => h3, fun _ => rfl⟩, ?_⟩
        simp [allocBlock, List.append_assoc]
      · refine ⟨false, false, false, _, _,
          hold_all_present env E pm pti va w hs hva hroot h1 h2 h3,
          by simp, by simp, ⟨by simp, fun hf => absurd hf h1⟩,
          fun _ => ⟨fun hf => Bool.noConfusion hf, fun hf => absurd hf h2⟩,
          fun _ => ⟨fun hf => Bool.noConfusion hf, fun hf => absurd hf h3⟩, ?_⟩
        simp [pushEvent, List.append_assoc]


/-! ## Easy claim theorems: C10, C8, C3 -/

/-- C10: each index-extraction helper returns a value in `0 … 511`, and the
top-level helper is unaffected by the sign-extension bits (bit 48 and up):
`pml4t_index v = pml4t_index (v &&& SIGNMASK)`. -/
theorem table_index_bounds :
    ∀ va : Nat, pml4t_index va < 512 ∧ pdpt_index va < 512 ∧ pdt_index va < 512 ∧
      pml4t_index va = pml4t_index (va &&& SIGNMASK) := by
  intro va
  refine ⟨pml4t_index_lt va, pdpt_index_lt va, pdt_index_lt va, ?_⟩
  · show (va &&& SIGNMASK) >>> PML4SHIFT = ((va &&& SIGNMASK) &&& SIGNMASK) >>> PML4SHIFT
    rw [Nat.and_assoc, Nat.and_self]

/-- C8: context initialization succeeds exactly when storage and backend are
non-null, `alloc`/`ptov`/`vtop` are all supplied and the storage does not
already carry the validity tag; `free` being absent is never a violation. -/
theorem mmu_map_t_init_contract :
    ∀ (addr : Option MmuMapIndex) (mb : Option MmuMapMbackend),
      exceptOk (mmu_map_t_init addr mb) = true ↔
        ∃ pti m, addr = some pti ∧ mb = some m ∧ pti.sanity ≠ SANE ∧
          m.hasAlloc = true ∧ m.hasPtov = true ∧ m.hasVtop = true := by
  intro addr mb
  cases addr with
  | none => simp [mmu_map_t_init, exceptOk]
  | some pti =>
    cases mb with
    | none => simp [mmu_map_t_init, exceptOk]
    | some m =>
      by_cases hs : pti.sanity = SANE
      · simp [mmu_map_t_init, exceptOk, hs]
      · by_cases hreq : m.hasAlloc && m.hasPtov && m.hasVtop
        · have := hreq
          simp only [Bool.and_eq_true] at this
          simp [mmu_map_t_init, exceptOk, hs, hreq, this.1.1, this.1.2, this.2]
        · have h2 := hreq
          simp only [Bool.and_eq_true, not_and] at h2
          constructor
          · intro h
            exfalso
            simp [mmu_map_t_init, exceptOk, hs, hreq] at h
          · rintro ⟨pti2, m2, h1, h2', hs2, ha, hp, hv⟩
            cases h1; cases h2'
            exact absurd (by simp [ha, hp, hv]) hreq

/-- C3 counterexample: caller storage whose `pdpt` field holds `7` before a
successful `mmu_map_t_init` still holds `7` afterwards — `init` does not make
the four table references absent. -/
theorem mmu_map_t_init_refs_cex :
    exceptOk (mmu_map_t_init (some ⟨5, 7, 9, 11, ⟨true, true, true, true⟩, 0⟩)
      (some ⟨true, true, true, true⟩)) = true ∧
    (match mmu_map_t_init (some ⟨5, 7, 9, 11, ⟨true, true, true, true⟩, 0⟩)
        (some ⟨true, true, true, true⟩) with
      | .ok r => r.pdpt
      | .error _ => 0) = 7 := by
  constructor <;> rfl

/-- C3 (amended): after a successful initialization the validity tag is set
and the backend contract is copied in, but the four table references are left
exactly as the caller-supplied storage held them (`init` never writes them). -/
theorem mmu_map_t_init_amended (pti : MmuMapIndex) (m : MmuMapMbackend)
    (hs : pti.sanity ≠ SANE) (ha : m.hasAlloc = true) (hp : m.hasPtov = true)
    (hv : m.hasVtop = true) :
    mmu_map_t_init (some pti) (some m) = .ok { pti with ptmb := m, sanity := SANE } := by
  simp [mmu_map_t_init, hs, ha, hp, hv]

/-- Witness for the amended C3 theorem at concrete storage contents. -/
theorem mmu_map_t_init_amended_witness :
    mmu_map_t_init (some ⟨5, 7, 9, 11, ⟨true, true, true, true⟩, 0⟩)
      (some ⟨true, true, true, true⟩) =
      .ok ⟨5, 7, 9, 11, ⟨true, true, true, true⟩, SANE⟩ :=
  mmu_map_t_init_amended ⟨5, 7, 9, 11, ⟨true, true, true, true⟩, 0⟩
    ⟨true, true, true, true⟩ (by decide) rfl rfl rfl

set_option maxRecDepth 100000 in
/-- C1 (code bug): `hold` of the fresh address `vaW` allocates the three
non-root tables (`0x2000`, `0x3000`, `0x4000`) leaving state `(ptiH, wH)`;
the immediately following `release` (the composition `hrRes` equals the
release from that state) frees only the PT (`0x4000`): exactly one free event,
no frees of the PDT (`0x3000`) or PDPT (`0x2000`), and while the PT's
governing entry at `0x3800` was zeroed, the PDT's entry (`relWMem 0x2000 =
0x3007`) and the PDPT's entry (`relWMem 0x1100 = 0x2007`) stay live — not the
claimed three frees in leaf-to-root order with parents zeroed, because the
emptiness scans of the PDT and PDPT stages scan the stale (freed, nulled)
`pt` pointer instead of those levels' own tables. -/
theorem release_after_hold_frees_only_pt :
    mmu_map_hold_va idEnv pmW ptiW vaW wW = .ok (true, ptiH, wH) ∧
    hrRes = relW ∧
    exceptOk relW = true ∧
    relWEvents.countP isFreeEvent = 1 ∧
    Event.freeE 16384 ∈ relWEvents ∧
    Event.freeE 12288 ∉ relWEvents ∧
    Event.freeE 8192 ∉ relWEvents ∧
    relWMem 14336 = 0 ∧
    relWMem 8192 = 12295 ∧
    relWMem 4352 = 8199 := by
  refine ⟨rfl, rfl, rfl, ?_, ?_, ?_, ?_, rfl, rfl, rfl⟩ <;> decide


set_option maxRecDepth 100000 in
/-- C2 (code bug): in the same release, the PT stage scans the PT's own page
(`0x4000`), but the PDT and PDPT stages scan page `0` (the freed-and-nulled
`pt` pointer, i.e. `pti->pt` as the source writes at lines 489 and 531) and
never scan their own table pages `0x3000` and `0x2000`: the emptiness test of
those levels does not scan that level's own table. -/
theorem release_scans_stale_pt_pointer :
    hrRes = relW ∧
    Event.scanE 16384 ∈ relWEvents ∧
    Event.scanE 0 ∈ relWEvents ∧
    Event.scanE 12288 ∉ relWEvents ∧
    Event.scanE 8192 ∉ relWEvents := by
  refine ⟨rfl, ?_, ?_, ?_, ?_⟩ <;> decide


set_option maxRecDepth 100000 in
/-- C7 counterexample: the PDT self-maps onto the page of `vaC`
(`atop ptiC.pdt = atop vaC`), yet `release` zeroes an entry of the PDT — the
governing entry of the just-freed PT at slot `12288`, queued to the hypervisor
and flushed (`5` before, `0` after) — before returning at the self-map check,
refuting "release returns immediately without reading or zeroing that level's
table contents". -/
theorem release_selfmap_zeroes_cex :
    atop ptiC.pdt = atop vaC ∧
    wC.mem 12288 = 5 ∧
    exceptOk relC = true ∧
    Event.queueE 12288 0 ∈ relCEvents ∧
    relCMem 12288 = 0 := by
  refine ⟨rfl, rfl, rfl, ?_, rfl⟩
  decide


/-! ## Identity environment facts and concrete preconditions for witnesses -/

lemma envGood_id : EnvGood idEnv :=
  ⟨fun _ => rfl, fun _ => rfl, fun _ h => h, fun _ h => h, fun _ h => h⟩

lemma holdPreW : HoldPre idEnv pmW ptiW vaW wW :=
  ⟨envGood_id, rfl, by decide, rfl, by decide, by decide,
   8192, 12288, 16384, [], rfl,
   ⟨by decide, by decide, by decide, by decide, by decide⟩,
   ⟨by decide, by decide, by decide, by decide, by decide⟩,
   ⟨by decide, by decide, by decide, by decide, by decide⟩,
   by decide, by decide, by decide, by decide, by decide, by decide, by decide⟩
/-- C7 (amended): the self-map check at each level runs before that level's
stage scans that level's table, and when it triggers, `release` returns at
that check.  If the leaf PT itself self-maps, release returns with the world
untouched: nothing is read, scanned, zeroed or freed (first conjunct).  If
the PDT self-maps (and the PT is present, not self-mapped, and empty), the
release still returns at the PDT-level check without any read events and
without scanning the PDT's page — but the deeper PT stage has, by then,
already zeroed the PDT's governing entry for the freed PT (one queued update
at that slot's machine address, flushed) and freed the PT; this already-done
zeroing of the self-mapping level's table is what the original claim rules
out and the counterexample exhibits (second conjunct). -/
theorem release_selfmap_amended (env : Env) (pm : Pmap) (pti : MmuMapIndex) (va : Nat)
    (w : World) (E : EnvGood env) (hs : pti.sanity = SANE) (hroot : pm.pm_pml4 ≠ 0) :
    (pti.pt ≠ 0 → pti.pdt ≠ 0 → atop pti.pt = atop va →
      mmu_map_release_va env pm pti va w = .ok ({ pti with pml4t := pm.pm_pml4 }, w)) ∧
    (pti.pt ≠ 0 → pti.pdt ≠ 0 → pti.pdpt ≠ 0 → atop pti.pt ≠ atop va →
      atop pti.pdt = atop va → memcchr_zero w.mem pti.pt = true →
      w.pending = [] → pti.ptmb.hasFree = true →
      mmu_map_release_va env pm pti va w =
        .ok ({ pti with pml4t := pm.pm_pml4, pt := 0 },
          { w with mem := writeSlot w.mem (pti.pdt + 8 * pdt_index va) 0,
                   pending := [],
                   events := w.events ++ [Event.scanE pti.pt,
                     Event.queueE (slotMa env (pti.pdt + 8 * pdt_index va)) 0,
                     Event.flushE, Event.freeE pti.pt] })) := by
  constructor
  · intro hpt hpdt hself
    unfold mmu_map_release_va
    rw [if_neg (by simp [hs])]
    rw [pmap_get_pml4t_ok pm hroot]
    simp only []
    rw [if_neg (by exact hroot)]
    rw [if_neg (by simp [hpdt])]
    have hblock1 : releaseZapPdte env va { pti with pml4t := pm.pm_pml4 } w =
        .ok (RelFlow.done { pti with pml4t := pm.pm_pml4 } w) := by
      unfold releaseZapPdte
      rw [if_pos (by exact hpdt)]
      rw [if_neg (by exact hpt)]
      rw [if_pos (by exact hself)]
    rw [hblock1]
  · intro hpt hpdt hpdpt hnself hself hscan hpend hfree
    unfold mmu_map_release_va
    rw [if_neg (by simp [hs])]
    rw [pmap_get_pml4t_ok pm hroot]
    simp only []
    rw [if_neg (by exact hroot)]
    rw [if_neg (by simp [hpdt])]
    have hblock1 : releaseZapPdte env va { pti with pml4t := pm.pm_pml4 } w =
        .ok (RelFlow.cont { pti with pml4t := pm.pm_pml4, pt := 0 }
          { w with mem := writeSlot w.mem (pti.pdt + 8 * pdt_index va) 0,
                   pending := [],
                   events := w.events ++ [Event.scanE pti.pt,
                     Event.queueE (slotMa env (pti.pdt + 8 * pdt_index va)) 0,
                     Event.flushE, Event.freeE pti.pt] }) := by
      unfold releaseZapPdte
      rw [if_pos (by exact hpdt)]
      rw [if_neg (by exact hpt)]
      rw [if_neg (by exact hnself)]
      rw [if_pos (by exact hscan)]
      rw [flush_single env _ (by exact hpend)]
      rw [slotMa_inv env E]
      rw [if_neg (by exact hpdpt)]
      rw [if_pos (by exact hfree)]
      simp [pushEvent, List.append_assoc]
    rw [hblock1]
    simp only []
    have hblock2 : releaseZapPdpte env va { pti with pml4t := pm.pm_pml4, pt := 0 }
        { w with mem := writeSlot w.mem (pti.pdt + 8 * pdt_index va) 0,
                 pending := [],
                 events := w.events ++ [Event.scanE pti.pt,
                   Event.queueE (slotMa env (pti.pdt + 8 * pdt_index va)) 0,
                   Event.flushE, Event.freeE pti.pt] } =
        .ok (RelFlow.done { pti with pml4t := pm.pm_pml4, pt := 0 }
          { w with mem := writeSlot w.mem (pti.pdt + 8 * pdt_index va) 0,
                   pending := [],
                   events := w.events ++ [Event.scanE pti.pt,
                     Event.queueE (slotMa env (pti.pdt + 8 * pdt_index va)) 0,
                     Event.flushE, Event.freeE pti.pt] }) := by
      unfold releaseZapPdpte
      rw [if_pos (by exact hpdpt)]
      rw [if_neg (by exact hpdt)]
      unfold releaseZapPdpteTail
      rw [if_pos (by exact hself)]
    rw [hblock2]

/-- Witness for C4 at a concrete fully-mapped world (identity translations). -/
theorem mmu_map_inspect_va_spec_witness :
    ∃ (found : Bool) (pti2 : MmuMapIndex) (w2 : World),
      mmu_map_inspect_va idEnv pmW ptiW vaW wI = .ok (found, pti2, w2) ∧
      w2.mem = wI.mem ∧ w2.pending = wI.pending ∧ w2.allocSupply = wI.allocSupply ∧
      (∃ E2, w2.events = wI.events ++ E2 ∧ ∀ e ∈ E2, ∃ a, e = Event.readE a) ∧
      (found = true ↔
        (wI.mem (pmW.pm_pml4 + 8 * pml4t_index vaW) &&& PG_V ≠ 0 ∧
         wI.mem (resolvedPdptVa idEnv pmW vaW wI + 8 * pdpt_index vaW) &&& PG_V ≠ 0 ∧
         wI.mem (resolvedPdtVa idEnv pmW vaW wI + 8 * pdt_index vaW) &&& PG_V ≠ 0)) ∧
      (found = true →
        pti2 = { ptiW with pml4t := pmW.pm_pml4, pdpt := resolvedPdptVa idEnv pmW vaW wI,
                           pdt := resolvedPdtVa idEnv pmW vaW wI,
                           pt := resolvedPtVa idEnv pmW vaW wI } ∧
        pti2.pml4t ≠ 0 ∧ pti2.pdpt ≠ 0 ∧ pti2.pdt ≠ 0 ∧ pti2.pt ≠ 0) :=
  mmu_map_inspect_va_spec idEnv pmW ptiW vaW wI envGood_id rfl (by decide) (by decide)
    (by decide) (by decide) (by decide)

set_option maxRecDepth 100000 in
/-- Witness for C5: second `hold` after the fresh three-level `hold`. -/
theorem mmu_map_hold_va_idempotent_witness :
    ∃ w2 : World,
      mmu_map_hold_va idEnv pmW ptiH vaW wH = .ok (false, ptiH, w2) ∧
      w2.mem = wH.mem ∧ w2.allocSupply = wH.allocSupply ∧ w2.pending = wH.pending ∧
      (∃ E2, w2.events = wH.events ++ E2 ∧ ∀ e ∈ E2, ∃ a, e = Event.readE a) :=
  mmu_map_hold_va_idempotent idEnv pmW ptiW vaW wW holdPreW true ptiH wH (by rfl)

set_option maxRecDepth 100000 in
/-- Witness for C6: `inspect` after the fresh three-level `hold`. -/
theorem mmu_map_inspect_after_hold_witness :
    ∃ w2 : World,
      mmu_map_inspect_va idEnv pmW ptiH vaW wH = .ok (true, ptiH, w2) ∧
      w2.mem = wH.mem ∧ w2.allocSupply = wH.allocSupply ∧ w2.pending = wH.pending :=
  mmu_map_inspect_after_hold idEnv pmW ptiW vaW wW holdPreW true ptiH wH (by rfl)

/-- Witness for C9 at the fresh three-level `hold`. -/
theorem mmu_map_hold_va_protocol_witness :
    ∃ (b1 b2 b3 : Bool) (pti1 : MmuMapIndex) (w1 : World),
      mmu_map_hold_va idEnv pmW ptiW vaW wW = .ok ((b1 || b2 || b3), pti1, w1) ∧
      (b1 = true → b2 = true) ∧ (b2 = true → b3 = true) ∧
      (b1 = true ↔ resolvedPdptPhys idEnv pmW vaW wW = 0) ∧
      (b1 = false → (b2 = true ↔ resolvedPdtPhys idEnv pmW vaW wW = 0)) ∧
      (b2 = false → (b3 = true ↔ resolvedPtPhys idEnv pmW vaW wW = 0)) ∧
      w1.events = wW.events
        ++ [Event.readE (pmW.pm_pml4 + 8 * pml4t_index vaW)]
        ++ (cond b1 (allocBlock idEnv (pmW.pm_pml4 + 8 * pml4t_index vaW) pti1.pdpt) [])
        ++ [Event.readE (pti1.pdpt + 8 * pdpt_index vaW)]
        ++ (cond b2 (allocBlock idEnv (pti1.pdpt + 8 * pdpt_index vaW) pti1.pdt) [])
        ++ [Event.readE (pti1.pdt + 8 * pdt_index vaW)]
        ++ (cond b3 (allocBlock idEnv (pti1.pdt + 8 * pdt_index vaW) pti1.pt) []) :=
  mmu_map_hold_va_protocol idEnv pmW ptiW vaW wW holdPreW

set_option maxRecDepth 100000 in
/-- Witness for the amended C7 theorem at the self-mapping scenario. -/
theorem release_selfmap_amended_witness :
    mmu_map_release_va idEnv pmC ptiC vaC wC =
      .ok ({ ptiC with pml4t := pmC.pm_pml4, pt := 0 },
        { wC with mem := writeSlot wC.mem (ptiC.pdt + 8 * pdt_index vaC) 0,
                  pending := [],
                  events := wC.events ++ [Event.scanE ptiC.pt,
                    Event.queueE (slotMa idEnv (ptiC.pdt + 8 * pdt_index vaC)) 0,
                    Event.flushE, Event.freeE ptiC.pt] }) :=
  (release_selfmap_amended idEnv pmC ptiC vaC wC envGood_id rfl (by decide)).2
    (by decide) (by decide) (by decide) (by decide) (by decide) (by decide) rfl rfl
